import Mathlib

/-!
Verification of the sales ledger of `backSistemaViajes`
(`src/sales/models.py`, `src/sales/services.py`,
catalog read-model from `src/catalog/models.py`).

Modelling conventions:
* Monetary amounts are integers counting cents: every `DecimalField` in the
  source has `decimal_places=2`, so Python `Decimal` arithmetic on such
  values is exact and `quantize(Decimal("0.01"))` is the identity.
* Primary keys (auto ids and UUIDs) are `Nat`; timestamps are `Nat`.
* The database is a `DB` of lists, newest record first: every model whose
  default ordering the services rely on (`Payment`, ordering `-created_at`)
  is ordered that way, so Django's `.first()` is `List.find?`.
* Each `@transaction.atomic` service is `DB → Except Err (α × DB)`: a raised
  `ValidationError` rolls the whole transaction back, so an `Except.error`
  result carries no state and the caller keeps the pre-call `DB`.
* Django's `full_clean` runs the model's `clean` and then `validate_unique`
  (which enforces `unique_together` / `OneToOneField` / `unique=True`
  against the stored rows, excluding the row itself).
* `transaction.on_commit` callbacks (PDF builds) touch no ledger state and
  are omitted.
-/

namespace Sales

/-- `Ticket.status` choices (`src/sales/models.py`, `Ticket`). -/
inductive TStatus
  | RESERVED
  | PAID
  | CANCELLED
  | NO_SHOW
deriving DecidableEq, Repr

/-- `Payment.status` choices (`src/sales/models.py`, `Payment`). -/
inductive PStatus
  | PENDING
  | CONFIRMED
  | FAILED
  | PARTIALLY_REFUNDED
  | REFUNDED
deriving DecidableEq, Repr

/-- `Refund.status` choices (`src/sales/models.py`, `Refund`). -/
inductive RStatus
  | PENDING
  | CONFIRMED
  | FAILED
deriving DecidableEq, Repr

/-- `Receipt.status` choices (`src/sales/models.py`, `Receipt`). -/
inductive RcStatus
  | ISSUED
  | VOID
deriving DecidableEq, Repr

/-- Catalog `Seat` as the ledger reads it: owning bus and `active` flag
(`src/catalog/models.py`). -/
structure Seat where
  id : Nat
  busId : Nat
  active : Bool
deriving DecidableEq, Repr

/-- Catalog `Departure` as the ledger reads it: its route and bus
(`src/catalog/models.py`). -/
structure Departure where
  id : Nat
  routeId : Nat
  busId : Nat
deriving DecidableEq, Repr

/-- Catalog `RouteStop`: one stop of a route with its `order`
(`src/catalog/models.py`). -/
structure RouteStop where
  routeId : Nat
  officeId : Nat
  order : Nat
deriving DecidableEq, Repr

/-- `Ticket` row (`src/sales/models.py`). -/
structure Ticket where
  id : Nat
  passengerId : Nat
  departureId : Nat
  seatId : Nat
  originId : Nat
  destinationId : Nat
  officeSoldId : Nat
  sellerId : Nat
  status : TStatus
  price : Int
  paid_at : Option Nat
deriving DecidableEq, Repr

/-- `Payment` row (`src/sales/models.py`). -/
structure Payment where
  id : Nat
  ticketId : Nat
  methodId : Nat
  amount : Int
  currency : String
  transaction_id : String
  status : PStatus
  officeId : Option Nat
  cashierId : Option Nat
  paid_at : Option Nat
deriving DecidableEq, Repr

/-- `Refund` row (`src/sales/models.py`). -/
structure Refund where
  id : Nat
  paymentId : Nat
  amount : Int
  currency : String
  reason : String
  processedById : Option Nat
  status : RStatus
  processed_at : Option Nat
deriving DecidableEq, Repr

/-- `Receipt` row (`src/sales/models.py`); `payment` is a `OneToOneField` and
`number` is `unique=True`. -/
structure Receipt where
  id : Nat
  paymentId : Nat
  number : String
  total_amount : Int
  currency : String
  issuerOfficeId : Nat
  issuerId : Nat
  status : RcStatus
  notes : String
deriving DecidableEq, Repr

/-- The ledger store: catalog read-model plus the four sales tables,
newest row first. -/
structure DB where
  seats : List Seat
  departures : List Departure
  routeStops : List RouteStop
  tickets : List Ticket
  payments : List Payment
  refunds : List Refund
  receipts : List Receipt
deriving DecidableEq, Repr

/-- Domain errors: one tag per distinct `ValidationError` message raised in
`src/sales/models.py` / `src/sales/services.py`, plus `notFound` for a
`DoesNotExist` from a primary-key `get`. -/
inductive Err
  | notFound
  | seatUnavailable
  | seatBusMismatch
  | invalidSubRoute
  | invalidStopOrder
  | seatInactive
  | uniqueViolation
  | ticketNotPayable
  | overpaymentPrice
  | overpaymentDue
  | invalidPaymentAmount
  | paymentNotRefundable
  | invalidRefundAmount
  | refundExceedsBalance
  | receiptNotIssuable
  | invalidReceiptAmount
  | receiptExceedsPayment
  | unrefundedBalance
  | noShowOnCancelled
deriving DecidableEq, Repr

/-- `Model.objects.get(pk=...)`: the row or a `DoesNotExist`. -/
def getOr {α : Type} (o : Option α) : Except Err α :=
  match o with
  | some a => Except.ok a
  | none => Except.error Err.notFound

def findSeat (db : DB) (sid : Nat) : Option Seat :=
  db.seats.find? (fun s => s.id == sid)

def findDeparture (db : DB) (did : Nat) : Option Departure :=
  db.departures.find? (fun d => d.id == did)

def findTicket (db : DB) (tid : Nat) : Option Ticket :=
  db.tickets.find? (fun t => t.id == tid)

def findPayment (db : DB) (pid : Nat) : Option Payment :=
  db.payments.find? (fun p => p.id == pid)

/-- The `order` of `officeId` on route `routeId`: the dict
`{rs.office_id: rs.order for rs in route.stops.all()}` of `Ticket.clean`. -/
def stopOrder (db : DB) (routeId officeId : Nat) : Option Nat :=
  (db.routeStops.find? (fun rs => rs.routeId == routeId && rs.officeId == officeId)).map
    RouteStop.order

/-- The confirmed class of payment statuses: the list
`[STATUS_CONFIRMED, STATUS_PARTIALLY_REFUNDED, STATUS_REFUNDED]` used by every
balance aggregate in the source. -/
def confirmedClass : PStatus → Bool
  | PStatus.CONFIRMED => true
  | PStatus.PARTIALLY_REFUNDED => true
  | PStatus.REFUNDED => true
  | _ => false

/-- `Payment.objects.filter(ticket=t, status__in=confirmed-class)
.aggregate(Sum("amount"))`. -/
def ticketConfirmedSum (db : DB) (tid : Nat) : Int :=
  ((db.payments.filter (fun p => p.ticketId == tid && confirmedClass p.status)).map
    Payment.amount).sum

/-- The join `payment__ticket=t` of the refund aggregates: the refund's
payment row belongs to ticket `tid`. -/
def refundOnTicket (db : DB) (tid : Nat) (r : Refund) : Bool :=
  db.payments.any (fun p => p.id == r.paymentId && p.ticketId == tid)

/-- `Refund.objects.filter(payment__ticket=t, status=CONFIRMED)
.aggregate(Sum("amount"))`. -/
def ticketRefundsSum (db : DB) (tid : Nat) : Int :=
  ((db.refunds.filter (fun r => r.status == RStatus.CONFIRMED && refundOnTicket db tid r)).map
    Refund.amount).sum

/-- `Ticket.amount_paid`: net of confirmed-class payments minus confirmed
refunds of the ticket. -/
def amount_paid (db : DB) (t : Ticket) : Int :=
  ticketConfirmedSum db t.id - ticketRefundsSum db t.id

/-- `Ticket.amount_due = price - amount_paid`. -/
def amount_due (db : DB) (t : Ticket) : Int :=
  t.price - amount_paid db t

/-- `Payment.refunded_total`: sum of this payment's CONFIRMED refunds. -/
def refunded_total (db : DB) (p : Payment) : Int :=
  ((db.refunds.filter (fun r => r.paymentId == p.id && r.status == RStatus.CONFIRMED)).map
    Refund.amount).sum

/-- `Payment.refundable_remaining = amount - refunded_total`. -/
def refundable_remaining (db : DB) (p : Payment) : Int :=
  p.amount - refunded_total db p

/-- Django `save()` on a row: update in place when the primary key exists,
insert (newest first) otherwise. -/
def upsertTicket (l : List Ticket) (t : Ticket) : List Ticket :=
  if l.any (fun u => u.id == t.id) then l.map (fun u => if u.id == t.id then t else u)
  else t :: l

def upsertPayment (l : List Payment) (p : Payment) : List Payment :=
  if l.any (fun u => u.id == p.id) then l.map (fun u => if u.id == p.id then p else u)
  else p :: l

def upsertRefund (l : List Refund) (r : Refund) : List Refund :=
  if l.any (fun u => u.id == r.id) then l.map (fun u => if u.id == r.id then r else u)
  else r :: l

/-- `Ticket.clean` (`src/sales/models.py`): seat belongs to the departure's
bus, origin/destination are stops of the departure's route in strict order,
and the seat is active. The `if self.seat_id and self.departure_id`
truthiness guards of the Python become `!= 0` tests. -/
def ticketClean (db : DB) (t : Ticket) : Except Err Unit := do
  if t.seatId != 0 && t.departureId != 0 then
    let dep ← getOr (findDeparture db t.departureId)
    let seat ← getOr (findSeat db t.seatId)
    if dep.busId != 0 && seat.busId != 0 && dep.busId != seat.busId then
      throw Err.seatBusMismatch
  if t.departureId != 0 && t.originId != 0 && t.destinationId != 0 then
    let dep ← getOr (findDeparture db t.departureId)
    match stopOrder db dep.routeId t.originId, stopOrder db dep.routeId t.destinationId with
    | some o, some d => if o ≥ d then throw Err.invalidStopOrder
    | _, _ => throw Err.invalidSubRoute
  if t.seatId != 0 then
    let seat ← getOr (findSeat db t.seatId)
    if !seat.active then throw Err.seatInactive

/-- `validate_unique` for `Ticket.Meta.unique_together =
("departure", "seat", "origin", "destination")`, excluding the row itself. -/
def ticketValidateUnique (db : DB) (t : Ticket) : Except Err Unit :=
  if db.tickets.any (fun u => u.id != t.id && u.departureId == t.departureId &&
      u.seatId == t.seatId && u.originId == t.originId && u.destinationId == t.destinationId)
  then Except.error Err.uniqueViolation else Except.ok ()

/-- `Ticket.full_clean()`: `clean` then `validate_unique`. -/
def ticketFullClean (db : DB) (t : Ticket) : Except Err Unit := do
  ticketClean db t
  ticketValidateUnique db t

/-- `Ticket.save` (`src/sales/models.py`): `full_clean`, then the status
propagator — a non-CANCELLED ticket with `amount_due == 0` and no `paid_at`
becomes PAID with `paid_at` stamped — then the row is written. -/
def ticketSave (db : DB) (t : Ticket) (now : Nat) : Except Err (Ticket × DB) := do
  ticketFullClean db t
  let t' :=
    if t.status != TStatus.CANCELLED && amount_due db t == 0 && t.paid_at == none then
      { t with status := TStatus.PAID, paid_at := some now }
    else t
  Except.ok (t', { db with tickets := upsertTicket db.tickets t' })

/-- The `t = <payment-or-refund>.ticket; if t: t.save()` refresh the
`Payment.save` / `Refund.save` overrides end with. -/
def saveTicketOf (db : DB) (tid : Nat) (now : Nat) : Except Err DB :=
  match findTicket db tid with
  | some t => (ticketSave db t now).map (fun pr => pr.2)
  | none => Except.ok db

/-- `Payment.clean` (`src/sales/models.py`): positive amount, payable ticket,
and — for a confirmed-class payment — no overpayment against the balance
computed from the other confirmed-class payments minus the ticket's
confirmed refunds. -/
def paymentClean (db : DB) (p : Payment) : Except Err Unit := do
  if p.amount ≤ 0 then throw Err.invalidPaymentAmount
  let tk ← getOr (findTicket db p.ticketId)
  if tk.status == TStatus.CANCELLED || tk.status == TStatus.NO_SHOW then
    throw Err.ticketNotPayable
  if p.ticketId != 0 && p.amount != 0 then
    let confirmedSum :=
      ((db.payments.filter (fun q => q.ticketId == p.ticketId && confirmedClass q.status &&
        q.id != p.id)).map Payment.amount).sum
    let refundsSum := ticketRefundsSum db p.ticketId
    let due := tk.price - (confirmedSum - refundsSum)
    if confirmedClass p.status then
      if p.amount > tk.price then throw Err.overpaymentPrice
      if p.amount > due then throw Err.overpaymentDue

/-- The stamping step of `Payment.save`: a CONFIRMED payment without a
`paid_at` gets one. -/
def stampPayment (p : Payment) (now : Nat) : Payment :=
  if p.status == PStatus.CONFIRMED && p.paid_at == none then { p with paid_at := some now }
  else p

/-- `Payment.save` (`src/sales/models.py`): `full_clean`, stamp `paid_at` on a
CONFIRMED payment that lacks one, write the row, then refresh the ticket. -/
def paymentSave (db : DB) (p : Payment) (now : Nat) : Except Err (Payment × DB) := do
  paymentClean db p
  let db2 ← saveTicketOf { db with payments := upsertPayment db.payments (stampPayment p now) }
    (stampPayment p now).ticketId now
  Except.ok (stampPayment p now, db2)

/-- `Refund.clean` (`src/sales/models.py`): positive amount, a payment that is
CONFIRMED or PARTIALLY_REFUNDED, and no more than `refundable_remaining`. -/
def refundClean (db : DB) (r : Refund) : Except Err Unit := do
  if r.amount ≤ 0 then throw Err.invalidRefundAmount
  if r.paymentId == 0 then throw Err.notFound
  let p ← getOr (findPayment db r.paymentId)
  if !(p.status == PStatus.CONFIRMED || p.status == PStatus.PARTIALLY_REFUNDED) then
    throw Err.paymentNotRefundable
  if r.amount > refundable_remaining db p then throw Err.refundExceedsBalance

/-- The stamping step of `Refund.save`: a CONFIRMED refund without a
`processed_at` gets one. -/
def stampRefund (r : Refund) (now : Nat) : Refund :=
  if r.status == RStatus.CONFIRMED && r.processed_at == none then
    { r with processed_at := some now }
  else r

/-- The payment-status adjustment of `Refund.save`: recompute the payment's
refunded total (the new refund row is already written) and move its status to
PARTIALLY_REFUNDED (`0 < refunded < amount`) or REFUNDED (`refunded ≥
amount`) via `Payment.save`, which itself refreshes the ticket. -/
def refundAdjustPayment (db1 : DB) (p : Payment) (now : Nat) : Except Err DB :=
  if refunded_total db1 p == 0 then Except.ok db1
  else if refunded_total db1 p < p.amount then
    if p.status != PStatus.PARTIALLY_REFUNDED then
      (paymentSave db1 { p with status := PStatus.PARTIALLY_REFUNDED } now).map
        (fun pr => pr.2)
    else Except.ok db1
  else
    if p.status != PStatus.REFUNDED then
      (paymentSave db1 { p with status := PStatus.REFUNDED } now).map (fun pr => pr.2)
    else Except.ok db1

/-- The tail of `Refund.save` after the row write (`db1` already holds the
stamped refund `r'`): adjust the owning payment's status, then refresh the
ticket. -/
def refundFinish (db1 : DB) (r' : Refund) (now : Nat) : Except Err (Refund × DB) :=
  match findPayment db1 r'.paymentId with
  | none => Except.ok (r', db1)
  | some p => do
    let db2 ← refundAdjustPayment db1 p now
    let db3 ← saveTicketOf db2 p.ticketId now
    Except.ok (r', db3)

/-- `Refund.save` (`src/sales/models.py`): `full_clean`, stamp `processed_at`
on a CONFIRMED refund, write the row, then adjust the owning payment's status
and refresh the ticket. -/
def refundSave (db : DB) (r : Refund) (now : Nat) : Except Err (Refund × DB) := do
  refundClean db r
  refundFinish { db with refunds := upsertRefund db.refunds (stampRefund r now) }
    (stampRefund r now) now

/-- `Receipt.clean` (`src/sales/models.py`): the receipt is tied to a payment,
has a positive amount, the payment is confirmed-class, and the amount does
not exceed the payment's. -/
def receiptClean (db : DB) (rc : Receipt) : Except Err Unit := do
  if rc.paymentId == 0 then throw Err.notFound
  if rc.total_amount ≤ 0 then throw Err.invalidReceiptAmount
  let p ← getOr (findPayment db rc.paymentId)
  if !confirmedClass p.status then throw Err.receiptNotIssuable
  if rc.total_amount > p.amount then throw Err.receiptExceedsPayment

/-- `validate_unique` for `Receipt`: `number` is `unique=True` and `payment`
is a `OneToOneField`, both checked against the stored rows excluding the row
itself. -/
def receiptValidateUnique (db : DB) (rc : Receipt) : Except Err Unit :=
  if db.receipts.any (fun u => u.id != rc.id &&
      (u.number == rc.number || u.paymentId == rc.paymentId))
  then Except.error Err.uniqueViolation else Except.ok ()

/-- `Receipt.full_clean()`: `clean` then `validate_unique` (`Receipt` does not
override `save`, so persisting is a plain row write). -/
def receiptFullClean (db : DB) (rc : Receipt) : Except Err Unit := do
  receiptClean db rc
  receiptValidateUnique db rc

/-- `create_ticket_safe` (`src/sales/services.py`): fetch and lock the seat,
re-check inside the lock that no non-CANCELLED ticket holds
`(departure, seat)`, build the ticket, `full_clean` it and `save` it.
`newId` is the fresh `uuid4` primary key, `now` the transaction's clock. -/
def create_ticket_safe (db : DB) (passengerId departure_id seat_id origin_id
    destination_id office_sold_id sellerId : Nat) (price : Int)
    (initial_status : TStatus) (newId now : Nat) : Except Err (Ticket × DB) := do
  let seat_locked ← getOr (findSeat db seat_id)
  let conflict_exists := db.tickets.any (fun u => u.departureId == departure_id &&
    u.seatId == seat_locked.id && u.status != TStatus.CANCELLED)
  if conflict_exists then throw Err.seatUnavailable
  let t : Ticket :=
    { id := newId, passengerId := passengerId, departureId := departure_id,
      seatId := seat_locked.id, originId := origin_id, destinationId := destination_id,
      officeSoldId := office_sold_id, sellerId := sellerId, status := initial_status,
      price := price, paid_at := none }
  ticketFullClean db t
  ticketSave db t now

/-- Step 3 of `record_payment_safe`: «Evitar sobrepago si lo creas como
confirmado» — when the new payment is CONFIRMED, reject `amount > price`
(`overpaymentPrice`) and then `amount > due` (`overpaymentDue`); a Python
`raise` aborts the function, so the second check runs only when the first
passes. -/
def overpaymentCheck (status : PStatus) (amount price due : Int) : Except Err Unit :=
  if status == PStatus.CONFIRMED then
    if amount > price then Except.error Err.overpaymentPrice
    else if amount > due then Except.error Err.overpaymentDue
    else Except.ok ()
  else Except.ok ()

/-- Step 1 of `record_payment_safe`: «No se puede registrar un pago para un
ticket anulado o no presentado» — a CANCELLED or NO_SHOW ticket accepts no
payment. -/
def payableCheck (t : Ticket) : Except Err Unit :=
  if t.status == TStatus.CANCELLED || t.status == TStatus.NO_SHOW then
    Except.error Err.ticketNotPayable
  else Except.ok ()

/-- The guards of `create_refund_safe`: only CONFIRMED / PARTIALLY_REFUNDED
payments are refundable, the amount must be positive, and it must not exceed
`refundable_remaining`; each Python `raise` aborts, so the checks chain. -/
def refundChecks (db : DB) (payment : Payment) (amount : Int) : Except Err Unit :=
  if !(payment.status == PStatus.CONFIRMED ||
      payment.status == PStatus.PARTIALLY_REFUNDED) then
    Except.error Err.paymentNotRefundable
  else if amount ≤ 0 then Except.error Err.invalidRefundAmount
  else if amount > refundable_remaining db payment then
    Except.error Err.refundExceedsBalance
  else Except.ok ()

/-- `record_payment_safe` (`src/sales/services.py`): idempotent on a non-empty
`transaction_id` that already names a payment; otherwise lock the ticket,
reject CANCELLED / NO_SHOW, recompute the balance, reject an overpayment when
confirming, persist the payment and refresh the ticket. `transaction_id = ""`
models the absent (`None`) argument, as the source itself stores
`transaction_id or ""`. -/
def record_payment_safe (db : DB) (ticket_id method_id : Nat) (amount : Int)
    (currency : String) (cashierId office_id : Option Nat) (transaction_id : String)
    (confirm : Bool) (newId now : Nat) : Except Err (Payment × DB) :=
  match (if transaction_id != "" then
      db.payments.find? (fun p => p.transaction_id == transaction_id) else none) with
  | some existing => Except.ok (existing, db)
  | none => do
  let ticket ← getOr (findTicket db ticket_id)
  payableCheck ticket
  let confirmed_sum := ticketConfirmedSum db ticket.id
  let refunds_sum := ticketRefundsSum db ticket.id
  let net_paid := confirmed_sum - refunds_sum
  let due := ticket.price - net_paid
  let status := if confirm then PStatus.CONFIRMED else PStatus.PENDING
  overpaymentCheck status amount ticket.price due
  let pay : Payment :=
    { id := newId, ticketId := ticket.id, methodId := method_id, amount := amount,
      currency := currency, transaction_id := transaction_id, status := status,
      officeId := office_id, cashierId := cashierId,
      paid_at := if status == PStatus.CONFIRMED then some now else none }
  paymentClean db pay
  let (pay', db1) ← paymentSave db pay now
  let db2 ← saveTicketOf db1 ticket.id now
  Except.ok (pay', db2)

/-- `confirm_payment_safe` (`src/sales/services.py`): lock payment then
ticket, reject CANCELLED / NO_SHOW tickets, return unchanged when already
CONFIRMED, recompute the balance excluding this payment, reject an
overpayment, confirm, persist and refresh the ticket. -/
def confirm_payment_safe (db : DB) (payment_id : Nat) (now : Nat) :
    Except Err (Payment × DB) := do
  let payment ← getOr (findPayment db payment_id)
  let ticket ← getOr (findTicket db payment.ticketId)
  if ticket.status == TStatus.CANCELLED || ticket.status == TStatus.NO_SHOW then
    throw Err.ticketNotPayable
  else if payment.status == PStatus.CONFIRMED then
    Except.ok (payment, db)
  else do
  let confirmed_sum :=
    ((db.payments.filter (fun q => q.ticketId == ticket.id && confirmedClass q.status &&
      q.id != payment.id)).map Payment.amount).sum
  let refunds_sum := ticketRefundsSum db ticket.id
  let net_paid := confirmed_sum - refunds_sum
  let due := ticket.price - net_paid
  if payment.amount > ticket.price then throw Err.overpaymentPrice
  if payment.amount > due then throw Err.overpaymentDue
  let payment1 :=
    { payment with
      status := PStatus.CONFIRMED,
      paid_at := if payment.paid_at == none then some now else payment.paid_at }
  paymentClean db payment1
  let (pay', db1) ← paymentSave db payment1 now
  let db2 ← saveTicketOf db1 ticket.id now
  Except.ok (pay', db2)

/-- `create_refund_safe` (`src/sales/services.py`): lock the payment, accept
only CONFIRMED / PARTIALLY_REFUNDED payments, a positive amount within
`refundable_remaining`, build the refund, `full_clean` and `save` it (whose
override adjusts the payment's status and refreshes the ticket). -/
def create_refund_safe (db : DB) (payment_id : Nat) (amount : Int) (reason : String)
    (processedById : Option Nat) (confirm_immediately : Bool) (newId now : Nat) :
    Except Err (Refund × DB) := do
  let payment ← getOr (findPayment db payment_id)
  refundChecks db payment amount
  let refund : Refund :=
    { id := newId, paymentId := payment.id, amount := amount, currency := payment.currency,
      reason := reason, processedById := processedById,
      status := if confirm_immediately then RStatus.CONFIRMED else RStatus.PENDING,
      processed_at := if confirm_immediately then some now else none }
  refundClean db refund
  refundSave db refund now

/-- `issue_receipt_safe` (`src/sales/services.py`): lock the payment, return
the existing receipt when one exists (idempotent), accept only
confirmed-class payments, default the amount to the payment's, `full_clean`
and persist. The post-commit PDF callback touches no ledger state. -/
def issue_receipt_safe (db : DB) (payment_id : Nat) (number : String)
    (issuer_office_id issuerId : Nat) (total_amount : Option Int) (currency : String)
    (notes : String) (newId : Nat) : Except Err (Receipt × DB) := do
  let payment ← getOr (findPayment db payment_id)
  match db.receipts.find? (fun rc => rc.paymentId == payment.id) with
  | some rc => Except.ok (rc, db)
  | none => do
  if !(payment.status == PStatus.CONFIRMED || payment.status == PStatus.PARTIALLY_REFUNDED ||
      payment.status == PStatus.REFUNDED) then
    throw Err.receiptNotIssuable
  let amount := total_amount.getD payment.amount
  let receipt : Receipt :=
    { id := newId, paymentId := payment.id, number := number, total_amount := amount,
      currency := currency, issuerOfficeId := issuer_office_id, issuerId := issuerId,
      status := RcStatus.ISSUED, notes := notes }
  receiptFullClean db receipt
  Except.ok (receipt, { db with receipts := receipt :: db.receipts })

/-- `cancel_ticket_safe` (`src/sales/services.py`): no-op on CANCELLED,
reject while net confirmed payments remain, else set CANCELLED.
`ticket.save(update_fields=["status"])` runs `Ticket.save` (full_clean and
propagator — which cannot fire on a CANCELLED status) but writes only the
status column. -/
def cancel_ticket_safe (db : DB) (ticket_id : Nat) (now : Nat) :
    Except Err (Ticket × DB) := do
  let ticket ← getOr (findTicket db ticket_id)
  if ticket.status == TStatus.CANCELLED then
    Except.ok (ticket, db)
  else do
  let confirmed_sum := ticketConfirmedSum db ticket.id
  let refunds_sum := ticketRefundsSum db ticket.id
  if confirmed_sum - refunds_sum > 0 then throw Err.unrefundedBalance
  let t1 := { ticket with status := TStatus.CANCELLED }
  ticketFullClean db t1
  ticketFullClean db t1
  let t2 :=
    if t1.status != TStatus.CANCELLED && amount_due db t1 == 0 && t1.paid_at == none then
      { t1 with status := TStatus.PAID, paid_at := some now }
    else t1
  let t3 := { ticket with status := t2.status }
  Except.ok (t3, { db with tickets := upsertTicket db.tickets t3 })

/-- `mark_no_show_safe` (`src/sales/services.py`): reject on CANCELLED, else
set NO_SHOW; the save again writes only the status column. -/
def mark_no_show_safe (db : DB) (ticket_id : Nat) (now : Nat) :
    Except Err (Ticket × DB) := do
  let ticket ← getOr (findTicket db ticket_id)
  if ticket.status == TStatus.CANCELLED then throw Err.noShowOnCancelled
  let t1 := { ticket with status := TStatus.NO_SHOW }
  ticketFullClean db t1
  ticketFullClean db t1
  let t2 :=
    if t1.status != TStatus.CANCELLED && amount_due db t1 == 0 && t1.paid_at == none then
      { t1 with status := TStatus.PAID, paid_at := some now }
    else t1
  let t3 := { ticket with status := t2.status }
  Except.ok (t3, { db with tickets := upsertTicket db.tickets t3 })

/-! ### Concrete states

A minimal catalog and the ledger states the specification's scenarios walk
through, each built by running the services themselves, so every state used
below is reachable. -/

/-- The state a successful step leaves behind (the fallback is never used for
the steps below; each theorem that relies on a step also asserts the step
succeeded). -/
def dbAfter {α : Type} (r : Except Err (α × DB)) (fallback : DB) : DB :=
  match r with
  | Except.ok pr => pr.2
  | Except.error _ => fallback

/-- One bus (id 1), one active seat (id 3) on it, one departure (id 7) over
route 1 whose stops are office 1 < office 2 < office 3; empty ledger. -/
def demoCatalog : DB :=
  { seats := [⟨3, 1, true⟩], departures := [⟨7, 1, 1⟩],
    routeStops := [⟨1, 1, 0⟩, ⟨1, 2, 1⟩, ⟨1, 3, 2⟩],
    tickets := [], payments := [], refunds := [], receipts := [] }

/-- Ticket 11: seat 3 of departure 7, sub-route office 1 → office 2,
price 100.00, RESERVED. -/
def demoDB1 : DB :=
  dbAfter (create_ticket_safe demoCatalog 1 7 3 1 2 1 1 10000 TStatus.RESERVED 11 100)
    demoCatalog

/-- … then payment 21 of 60.00, confirmed immediately. -/
def demoDB2 : DB :=
  dbAfter (record_payment_safe demoDB1 11 1 6000 "BOB" none none "" true 21 101) demoDB1

/-- … then payment 22 of 40.00, confirmed immediately: ticket fully paid. -/
def demoDB3 : DB :=
  dbAfter (record_payment_safe demoDB2 11 1 4000 "BOB" none none "" true 22 102) demoDB2

/-- … then a confirmed refund 31 of 30.00 against payment 21. -/
def demoDB4 : DB :=
  dbAfter (create_refund_safe demoDB3 21 3000 "" none true 31 103) demoDB3

/-- The 60.00-paid state with the ticket then marked NO_SHOW. -/
def demoDB5 : DB := dbAfter (mark_no_show_safe demoDB2 11 105) demoDB2

/-- The unpaid state with the ticket then cancelled. -/
def demoDB6 : DB := dbAfter (cancel_ticket_safe demoDB1 11 107) demoDB1

/-- One non-CANCELLED ticket occupies `(dep, seat)`: the conflict predicate of
`create_ticket_safe`'s in-lock re-check. -/
def nonCancelledOn (dep seat : Nat) (t : Ticket) : Bool :=
  t.departureId == dep && t.seatId == seat && t.status != TStatus.CANCELLED

/-- Seat exclusivity over the whole store: at most one RESERVED / PAID /
NO_SHOW ticket per `(departure, seat)` pair. -/
def seatExclusive (db : DB) : Prop :=
  ∀ dep seat : Nat, db.tickets.countP (nonCancelledOn dep seat) ≤ 1

/-- At most one receipt per payment (the `OneToOneField` invariant). -/
def receiptUnique (db : DB) : Prop :=
  ∀ pid : Nat, db.receipts.countP (fun rc => rc.paymentId == pid) ≤ 1

/-- Refund bound: no payment's CONFIRMED refunds exceed its amount. -/
def refundBound (db : DB) : Prop :=
  ∀ p ∈ db.payments, refunded_total db p ≤ p.amount


end Sales

namespace Sales

/-! ### Reduction lemmas for the `Except` sequencing -/

theorem ok_bind {α β : Type} (a : α) (f : α → Except Err β) :
    (Except.ok a >>= f : Except Err β) = f a := rfl

theorem error_bind {α β : Type} (e : Err) (f : α → Except Err β) :
    (Except.error e >>= f : Except Err β) = Except.error e := rfl

theorem pure_bind_exc {α β : Type} (a : α) (f : α → Except Err β) :
    ((pure a : Except Err α) >>= f) = f a := rfl

theorem throw_exc {α : Type} (e : Err) : (throw e : Except Err α) = Except.error e := rfl

theorem findSeat_id {db : DB} {sid : Nat} {s : Seat} (h : findSeat db sid = some s) :
    s.id = sid := by
  have h2 := List.find?_some h
  simpa using h2

theorem findTicket_id {db : DB} {tid : Nat} {t : Ticket} (h : findTicket db tid = some t) :
    t.id = tid := by
  have h2 := List.find?_some h
  simpa using h2

theorem findPayment_id {db : DB} {pid : Nat} {p : Payment} (h : findPayment db pid = some p) :
    p.id = pid := by
  have h2 := List.find?_some h
  simpa using h2

theorem upsertTicket_fresh {l : List Ticket} {t : Ticket} (h : ∀ u ∈ l, u.id ≠ t.id) :
    upsertTicket l t = t :: l := by
  unfold upsertTicket
  rw [if_neg]
  intro hany
  rw [List.any_eq_true] at hany
  obtain ⟨u, hu, he⟩ := hany
  exact h u hu (by simpa using he)

theorem upsertPayment_fresh {l : List Payment} {p : Payment} (h : ∀ u ∈ l, u.id ≠ p.id) :
    upsertPayment l p = p :: l := by
  unfold upsertPayment
  rw [if_neg]
  intro hany
  rw [List.any_eq_true] at hany
  obtain ⟨u, hu, he⟩ := hany
  exact h u hu (by simpa using he)

theorem upsertRefund_fresh {l : List Refund} {r : Refund} (h : ∀ u ∈ l, u.id ≠ r.id) :
    upsertRefund l r = r :: l := by
  unfold upsertRefund
  rw [if_neg]
  intro hany
  rw [List.any_eq_true] at hany
  obtain ⟨u, hu, he⟩ := hany
  exact h u hu (by simpa using he)

/-- C1. Seat exclusivity: with the target seat present, `create_ticket_safe`
fails with `SeatUnavailable` (persisting nothing — an error rolls the
transaction back) whenever a non-CANCELLED ticket already holds
`(departure_id, seat_id)`; and a successful call implies no such ticket
existed and preserves the at-most-one-occupant invariant. -/
theorem C1_seat_exclusivity
    (db : DB) (passengerId departure_id seat_id origin_id destination_id
      office_sold_id sellerId : Nat)
    (price : Int) (initial_status : TStatus) (newId now : Nat) (seat : Seat)
    (hseat : findSeat db seat_id = some seat)
    (hfresh : ∀ u ∈ db.tickets, u.id ≠ newId) :
    ((∃ t ∈ db.tickets, nonCancelledOn departure_id seat_id t = true) →
      create_ticket_safe db passengerId departure_id seat_id origin_id destination_id
        office_sold_id sellerId price initial_status newId now =
        Except.error Err.seatUnavailable)
    ∧ (∀ t2 db2, create_ticket_safe db passengerId departure_id seat_id origin_id
        destination_id office_sold_id sellerId price initial_status newId now =
        Except.ok (t2, db2) →
        (∀ t ∈ db.tickets, nonCancelledOn departure_id seat_id t = false) ∧
        (seatExclusive db → seatExclusive db2)) := by
  have hid : seat.id = seat_id := findSeat_id hseat
  constructor
  · rintro ⟨t, ht, hpred⟩
    unfold create_ticket_safe
    rw [hseat]
    simp only [getOr, ok_bind]
    have hconf : db.tickets.any (fun u => u.departureId == departure_id &&
        u.seatId == seat.id && u.status != TStatus.CANCELLED) = true := by
      rw [List.any_eq_true]
      exact ⟨t, ht, by simpa [nonCancelledOn, hid] using hpred⟩
    simp [hconf]
    rfl
  · intro t2 db2 hok
    unfold create_ticket_safe at hok
    rw [hseat] at hok
    simp only [getOr, ok_bind] at hok
    by_cases hc : db.tickets.any (fun u => u.departureId == departure_id &&
        u.seatId == seat.id && u.status != TStatus.CANCELLED) = true
    · rw [if_pos hc] at hok
      rw [throw_exc, error_bind] at hok
      cases hok
    · rw [if_neg hc] at hok
      rw [pure_bind_exc] at hok
      have hall : ∀ u ∈ db.tickets, (u.departureId == departure_id &&
          u.seatId == seat.id && u.status != TStatus.CANCELLED) = false := by
        rw [Bool.not_eq_true, List.any_eq_false] at hc
        intro u hu
        simpa using hc u hu
      cases hclean : ticketFullClean db
          { id := newId, passengerId := passengerId, departureId := departure_id,
            seatId := seat.id, originId := origin_id, destinationId := destination_id,
            officeSoldId := office_sold_id, sellerId := sellerId,
            status := initial_status, price := price, paid_at := none } with
      | error e =>
        rw [hclean, error_bind] at hok
        cases hok
      | ok u =>
        cases u
        rw [hclean, ok_bind] at hok
        unfold ticketSave at hok
        rw [hclean, ok_bind] at hok
        rw [Except.ok.injEq, Prod.mk.injEq] at hok
        obtain ⟨ht2, hdb2⟩ := hok
        have hdep2 : t2.departureId = departure_id := by rw [← ht2]; split <;> rfl
        have hseat2 : t2.seatId = seat.id := by rw [← ht2]; split <;> rfl
        have hid2 : t2.id = newId := by rw [← ht2]; split <;> rfl
        constructor
        · intro u hu
          have h3 := hall u hu
          rw [hid] at h3
          simpa [nonCancelledOn] using h3
        · intro hexcl dep st
          rw [← hdb2]
          simp only
          rw [ht2]
          have hfT : ∀ u ∈ db.tickets, u.id ≠ t2.id := by
            intro u hu
            rw [hid2]
            exact hfresh u hu
          rw [upsertTicket_fresh hfT, List.countP_cons]
          by_cases hp : nonCancelledOn dep st t2 = true
          · unfold nonCancelledOn at hp
            rw [Bool.and_assoc, Bool.and_eq_true, Bool.and_eq_true] at hp
            obtain ⟨hpd, hps, hpc⟩ := hp
            rw [beq_iff_eq] at hpd hps
            have hdep : dep = departure_id := by rw [← hpd, hdep2]
            have hst : st = seat.id := by rw [← hps, hseat2]
            have h0 : db.tickets.countP (nonCancelledOn dep st) = 0 := by
              rw [List.countP_eq_zero]
              intro u hu
              rw [hdep, hst]
              simp [nonCancelledOn, hall u hu]
            rw [h0]
            split <;> omega
          · have hp2 : nonCancelledOn dep st t2 = false := by
              rwa [Bool.not_eq_true] at hp
            rw [hp2]
            simpa using hexcl dep st

/-- C1, witnessed on the demo store: with ticket 11 RESERVED on
`(departure 7, seat 3)`, a second sale of that seat fails with
`SeatUnavailable`. -/
theorem C1_seat_exclusivity_witness :
    create_ticket_safe demoDB1 2 7 3 1 3 1 1 9000 TStatus.RESERVED 12 200 =
      Except.error Err.seatUnavailable :=
  (C1_seat_exclusivity demoDB1 2 7 3 1 3 1 1 9000 TStatus.RESERVED 12 200
    ⟨3, 1, true⟩ (by decide) (by decide)).1 (by decide)

/-- C2. Overpayment rejection: against a payable ticket, with no prior payment
matching the supplied `transaction_id`, `record_payment_safe` with
`confirm = true` and `amount > price` or `amount > amount_due` fails with an
overpayment error; the rolled-back transaction persists no `Payment` row. -/
theorem C2_overpayment_rejected
    (db : DB) (ticket_id method_id : Nat) (amount : Int) (currency : String)
    (cashierId office_id : Option Nat) (transaction_id : String) (newId now : Nat)
    (tk : Ticket)
    (hfind : findTicket db ticket_id = some tk)
    (hnc : tk.status ≠ TStatus.CANCELLED) (hns : tk.status ≠ TStatus.NO_SHOW)
    (hidem : ∀ p ∈ db.payments, p.transaction_id ≠ transaction_id)
    (hover : amount > tk.price ∨ amount > amount_due db tk) :
    ∃ e, record_payment_safe db ticket_id method_id amount currency cashierId office_id
      transaction_id true newId now = Except.error e ∧
      (e = Err.overpaymentPrice ∨ e = Err.overpaymentDue) := by
  have hmatch : (if transaction_id != "" then
      db.payments.find? (fun p => p.transaction_id == transaction_id) else none) = none := by
    split
    · rw [List.find?_eq_none]
      intro p hp
      simp [hidem p hp]
    · rfl
  unfold record_payment_safe
  rw [hmatch]
  simp only [hfind, getOr, ok_bind]
  have hpay : payableCheck tk = Except.ok () := by
    unfold payableCheck
    rw [if_neg (by simp [hnc, hns])]
  rw [hpay, ok_bind]
  by_cases hp : amount > tk.price
  · refine ⟨Err.overpaymentPrice, ?_, Or.inl rfl⟩
    unfold overpaymentCheck
    rw [if_pos (by rfl), if_pos hp, error_bind]
  · have hd : amount > tk.price - (ticketConfirmedSum db tk.id - ticketRefundsSum db tk.id) := by
      rcases hover with h | h
      · exact absurd h hp
      · simpa [amount_due, amount_paid] using h
    refine ⟨Err.overpaymentDue, ?_, Or.inr rfl⟩
    unfold overpaymentCheck
    rw [if_pos (by rfl), if_neg hp, if_pos hd, error_bind]

/-- C2, witnessed: the spec's Scenario 4 — 150.00 immediately-confirmed
against the 100.00-price ticket 11 is rejected as an overpayment. -/
theorem C2_overpayment_rejected_witness :
    ∃ e, record_payment_safe demoDB1 11 1 15000 "BOB" none none "" true 23 103 =
      Except.error e ∧ (e = Err.overpaymentPrice ∨ e = Err.overpaymentDue) :=
  C2_overpayment_rejected demoDB1 11 1 15000 "BOB" none none "" 23 103
    ⟨11, 1, 7, 3, 1, 2, 1, 1, TStatus.RESERVED, 10000, none⟩
    (by decide) (by decide) (by decide) (by decide) (Or.inl (by decide))

/-- Ticket 11 as created: RESERVED, price 100.00, no `paid_at`. -/
def demoTicket11R : Ticket := ⟨11, 1, 7, 3, 1, 2, 1, 1, TStatus.RESERVED, 10000, none⟩

/-- C6. Status propagation to PAID: a ticket that passes `full_clean`, is not
CANCELLED, has `amount_due = 0` and no `paid_at` is saved by `Ticket.save` as
PAID with `paid_at` stamped; and the spec's Scenario 1 holds on the demo
store — after 60.00 confirmed the ticket is RESERVED with 40.00 due, after a
further 40.00 confirmed it is PAID with 0 due and `paid_at` set. -/
theorem C6_status_propagation
    (db : DB) (t : Ticket) (now : Nat)
    (hclean : ticketFullClean db t = Except.ok ())
    (hnc : t.status ≠ TStatus.CANCELLED)
    (hdue : amount_due db t = 0)
    (hpa : t.paid_at = none) :
    (ticketSave db t now =
      Except.ok ({ t with status := TStatus.PAID, paid_at := some now },
        { db with tickets := upsertTicket db.tickets
                      { t with status := TStatus.PAID, paid_at := some now } }))
    ∧ (record_payment_safe demoDB1 11 1 6000 "BOB" none none "" true 21 101).isOk = true
    ∧ (findTicket demoDB2 11).map Ticket.status = some TStatus.RESERVED
    ∧ (findTicket demoDB2 11).map (amount_due demoDB2) = some 4000
    ∧ (record_payment_safe demoDB2 11 1 4000 "BOB" none none "" true 22 102).isOk = true
    ∧ (findTicket demoDB3 11).map Ticket.status = some TStatus.PAID
    ∧ (findTicket demoDB3 11).map (amount_due demoDB3) = some 0
    ∧ (findTicket demoDB3 11).map Ticket.paid_at = some (some 102) := by
  refine ⟨?_, rfl, rfl, rfl, rfl, rfl, rfl, rfl⟩
  unfold ticketSave
  rw [hclean, ok_bind]
  rw [if_pos (by simp [hnc, hdue, hpa])]

/-- C6, witnessed: in the fully-paid demo store, saving the still-RESERVED
ticket row flips it to PAID and stamps `paid_at`. -/
theorem C6_status_propagation_witness :
    (ticketSave demoDB3 demoTicket11R 999 =
      Except.ok ({ demoTicket11R with status := TStatus.PAID, paid_at := some 999 },
        { demoDB3 with tickets := upsertTicket demoDB3.tickets
                          { demoTicket11R with status := TStatus.PAID, paid_at := some 999 } }))
    ∧ (record_payment_safe demoDB1 11 1 6000 "BOB" none none "" true 21 101).isOk = true
    ∧ (findTicket demoDB2 11).map Ticket.status = some TStatus.RESERVED
    ∧ (findTicket demoDB2 11).map (amount_due demoDB2) = some 4000
    ∧ (record_payment_safe demoDB2 11 1 4000 "BOB" none none "" true 22 102).isOk = true
    ∧ (findTicket demoDB3 11).map Ticket.status = some TStatus.PAID
    ∧ (findTicket demoDB3 11).map (amount_due demoDB3) = some 0
    ∧ (findTicket demoDB3 11).map Ticket.paid_at = some (some 102) :=
  C6_status_propagation demoDB3 demoTicket11R 999 (by rfl) (by decide) (by rfl) (by rfl)

/-- C9, counterexample: a reachable state (60.00 confirmed on ticket 11, then
`mark_no_show_safe`) holds a CONFIRMED payment on a NO_SHOW ticket, and
`confirm_payment_safe` raises `ticketNotPayable` on it instead of returning
the payment — the source checks the ticket's status before the idempotent
early return. -/
theorem C9_confirmed_noop_counterexample :
    (mark_no_show_safe demoDB2 11 105).isOk = true
    ∧ (findPayment demoDB5 21).map Payment.status = some PStatus.CONFIRMED
    ∧ (findTicket demoDB5 11).map Ticket.status = some TStatus.NO_SHOW
    ∧ confirm_payment_safe demoDB5 21 106 = Except.error Err.ticketNotPayable :=
  ⟨rfl, rfl, rfl, rfl⟩

/-- C9, amended: `confirm_payment_safe` is an idempotent no-op on an
already-CONFIRMED payment provided the owning ticket is neither CANCELLED nor
NO_SHOW (on those it raises `ticketNotPayable` first instead). -/
theorem C9_confirmed_noop_amended
    (db : DB) (payment_id now : Nat) (p : Payment) (tk : Ticket)
    (hp : findPayment db payment_id = some p)
    (ht : findTicket db p.ticketId = some tk)
    (hnc : tk.status ≠ TStatus.CANCELLED) (hns : tk.status ≠ TStatus.NO_SHOW)
    (hconf : p.status = PStatus.CONFIRMED) :
    confirm_payment_safe db payment_id now = Except.ok (p, db) := by
  unfold confirm_payment_safe
  rw [hp]
  simp only [getOr, ok_bind]
  rw [ht]
  simp only [ok_bind]
  rw [if_neg (by simp [hnc, hns])]
  rw [if_pos (by simp [hconf])]

/-- C9, amended and witnessed: confirming the already-CONFIRMED payment 21 on
the fully-paid (PAID) ticket returns it and leaves the store unchanged. -/
theorem C9_confirmed_noop_amended_witness :
    confirm_payment_safe demoDB3 21 200 =
      Except.ok (⟨21, 11, 1, 6000, "BOB", "", PStatus.CONFIRMED, none, none, some 101⟩,
        demoDB3) :=
  C9_confirmed_noop_amended demoDB3 21 200
    ⟨21, 11, 1, 6000, "BOB", "", PStatus.CONFIRMED, none, none, some 101⟩
    ⟨11, 1, 7, 3, 1, 2, 1, 1, TStatus.PAID, 10000, some 102⟩
    (by rfl) (by rfl) (by decide) (by decide) (by decide)

/-- … and a receipt (number R-1) issued for payment 21. -/
def demoDB7 : DB :=
  dbAfter (issue_receipt_safe demoDB3 21 "R-1" 1 1 none "BOB" "" 41) demoDB3

/-- A successful `Except` sequencing splits into a successful head and a
successful continuation. -/
theorem exc_bind_ok {α β : Type} {m : Except Err α} {f : α → Except Err β} {b : β} :
    (m >>= f = Except.ok b) ↔ ∃ a, m = Except.ok a ∧ f a = Except.ok b := by
  cases m with
  | ok a => simp [ok_bind]
  | error e => simp [error_bind]

/-- C3. Receipt idempotence: for a payment that already has a receipt,
`issue_receipt_safe` returns that receipt unchanged with no error and no new
row; a first issue on a payment whose status is not confirmed-class
(CONFIRMED, PARTIALLY_REFUNDED or REFUNDED) is rejected with
`receiptNotIssuable`; a first issue with `totalAmount > payment.amount` is
rejected; and any successful call preserves the at-most-one-receipt-per-
payment invariant. -/
theorem C3_receipt_idempotence
    (db : DB) (payment_id : Nat) (number : String) (issuer_office_id issuerId : Nat)
    (total_amount : Option Int) (currency notes : String) (newId : Nat)
    (p : Payment) (hp : findPayment db payment_id = some p) :
    (∀ rc, db.receipts.find? (fun u => u.paymentId == p.id) = some rc →
      issue_receipt_safe db payment_id number issuer_office_id issuerId total_amount
        currency notes newId = Except.ok (rc, db))
    ∧ (db.receipts.find? (fun u => u.paymentId == p.id) = none →
        confirmedClass p.status = false →
        issue_receipt_safe db payment_id number issuer_office_id issuerId total_amount
          currency notes newId = Except.error Err.receiptNotIssuable)
    ∧ (∀ ta, db.receipts.find? (fun u => u.paymentId == p.id) = none →
        total_amount = some ta → ta > p.amount →
        ∃ e, issue_receipt_safe db payment_id number issuer_office_id issuerId total_amount
          currency notes newId = Except.error e)
    ∧ (∀ rc2 db2, issue_receipt_safe db payment_id number issuer_office_id issuerId
        total_amount currency notes newId = Except.ok (rc2, db2) →
        receiptUnique db → receiptUnique db2) := by
  refine ⟨?_, ?_, ?_, ?_⟩
  · intro rc hrc
    unfold issue_receipt_safe
    rw [hp]
    simp only [getOr, ok_bind]
    rw [hrc]
  · intro hnone hcc
    unfold issue_receipt_safe
    rw [hp]
    simp only [getOr, ok_bind]
    rw [hnone]
    rw [if_pos (by cases hps : p.status <;> simp_all [confirmedClass])]
    rfl
  · intro ta hnone hta hgt
    subst hta
    unfold issue_receipt_safe
    rw [hp]
    simp only [getOr, ok_bind]
    rw [hnone]
    by_cases hcc : confirmedClass p.status = true
    · rw [if_neg (by cases hps : p.status <;> simp_all [confirmedClass])]
      unfold receiptFullClean receiptClean
      simp only [Option.getD_some, ok_bind]
      by_cases hz : p.id == 0
      · exact ⟨Err.notFound, by rw [if_pos hz]; rfl⟩
      · rw [if_neg hz]
        by_cases hneg : ta ≤ 0
        · exact ⟨Err.invalidReceiptAmount, by rw [if_pos hneg]; rfl⟩
        · rw [if_neg hneg]
          have hp2 : findPayment db p.id = some p := by
            rw [findPayment_id hp]
            exact hp
          rw [hp2]
          simp only [getOr, ok_bind]
          rw [if_neg (by simp [hcc])]
          exact ⟨Err.receiptExceedsPayment, by rw [if_pos hgt]; rfl⟩
    · rw [if_pos (by cases hps : p.status <;> simp_all [confirmedClass])]
      exact ⟨Err.receiptNotIssuable, rfl⟩
  · intro rc2 db2 hok hu
    unfold issue_receipt_safe at hok
    rw [hp] at hok
    simp only [getOr, ok_bind] at hok
    split at hok
    · simp only [Except.ok.injEq, Prod.mk.injEq] at hok
      rw [← hok.2]
      exact hu
    · rename_i hfind
      by_cases hcc : confirmedClass p.status = true
      · rw [if_neg (by cases hps : p.status <;> simp_all [confirmedClass])] at hok
        rw [pure_bind_exc, exc_bind_ok] at hok
        obtain ⟨u, hclean, hok⟩ := hok
        simp only [Except.ok.injEq, Prod.mk.injEq] at hok
        obtain ⟨hrc2, hdb2⟩ := hok
        rw [← hdb2]
        intro pid
        simp only
        rw [List.countP_cons]
        by_cases hm : pid = p.id
        · have h0 : db.receipts.countP (fun u => u.paymentId == pid) = 0 := by
            rw [List.countP_eq_zero]
            intro u hu2
            rw [List.find?_eq_none] at hfind
            simpa [hm] using hfind u hu2
          rw [h0]
          split <;> omega
        · split
          · rename_i hsp
            simp only [beq_iff_eq] at hsp
            exact absurd hsp.symm hm
          · simpa using hu pid
      · rw [if_pos (by cases hps : p.status <;> simp_all [confirmedClass])] at hok
        rw [throw_exc] at hok
        cases hok

/-- C3, witnessed: a second `issue_receipt_safe` for payment 21 returns the
already-issued receipt R-1 and leaves the store unchanged. -/
theorem C3_receipt_idempotence_witness :
    issue_receipt_safe demoDB7 21 "R-2" 1 1 none "BOB" "" 42 =
      Except.ok (⟨41, 21, "R-1", 6000, "BOB", 1, 1, RcStatus.ISSUED, ""⟩, demoDB7) :=
  (C3_receipt_idempotence demoDB7 21 "R-2" 1 1 none "BOB" "" 42
    ⟨21, 11, 1, 6000, "BOB", "", PStatus.CONFIRMED, none, none, some 101⟩ (by rfl)).1
    ⟨41, 21, "R-1", 6000, "BOB", 1, 1, RcStatus.ISSUED, ""⟩ (by rfl)

/-! ### Shape lemmas for the persistence layer -/

theorem getOr_ok {α : Type} {o : Option α} {a : α} :
    getOr o = Except.ok a ↔ o = some a := by
  cases o <;> simp [getOr]

theorem ticketSave_frame {db : DB} {t t2 : Ticket} {now : Nat} {db2 : DB}
    (h : ticketSave db t now = Except.ok (t2, db2)) :
    db2.seats = db.seats ∧ db2.departures = db.departures ∧
    db2.routeStops = db.routeStops ∧ db2.payments = db.payments ∧
    db2.refunds = db.refunds ∧ db2.receipts = db.receipts ∧
    db2.tickets = upsertTicket db.tickets t2 := by
  unfold ticketSave at h
  rw [exc_bind_ok] at h
  obtain ⟨u, hc, h⟩ := h
  simp only [Except.ok.injEq, Prod.mk.injEq] at h
  obtain ⟨h1, h2⟩ := h
  rw [← h2]
  exact ⟨rfl, rfl, rfl, rfl, rfl, rfl, by rw [h1]⟩

theorem saveTicketOf_frame {db : DB} {tid now : Nat} {db2 : DB}
    (h : saveTicketOf db tid now = Except.ok db2) :
    db2.seats = db.seats ∧ db2.departures = db.departures ∧
    db2.routeStops = db.routeStops ∧ db2.payments = db.payments ∧
    db2.refunds = db.refunds ∧ db2.receipts = db.receipts := by
  unfold saveTicketOf at h
  split at h
  · rename_i t ht
    cases hs : ticketSave db t now with
    | error e => rw [hs] at h; cases h
    | ok pr =>
      obtain ⟨t2, dbX⟩ := pr
      rw [hs] at h
      simp only [Except.map, Except.ok.injEq] at h
      obtain ⟨h1, h2, h3, h4, h5, h6, _⟩ := ticketSave_frame hs
      rw [← h]
      exact ⟨h1, h2, h3, h4, h5, h6⟩
  · rename_i ht
    simp only [Except.ok.injEq] at h
    rw [← h]
    exact ⟨rfl, rfl, rfl, rfl, rfl, rfl⟩

theorem paymentSave_shape {db : DB} {p : Payment} {now : Nat} {p2 : Payment} {db2 : DB}
    (h : paymentSave db p now = Except.ok (p2, db2)) :
    p2 = (if p.status == PStatus.CONFIRMED && p.paid_at == none then
      { p with paid_at := some now } else p) ∧
    db2.payments = upsertPayment db.payments p2 ∧
    db2.refunds = db.refunds ∧ db2.receipts = db.receipts ∧
    db2.seats = db.seats ∧ db2.departures = db.departures ∧
    db2.routeStops = db.routeStops := by
  unfold paymentSave at h
  rw [exc_bind_ok] at h
  obtain ⟨u, hc, h⟩ := h
  rw [exc_bind_ok] at h
  obtain ⟨dbX, hsto, h⟩ := h
  simp only [Except.ok.injEq, Prod.mk.injEq] at h
  obtain ⟨hp2, hdb2⟩ := h
  obtain ⟨h1, h2, h3, h4, h5, h6⟩ := saveTicketOf_frame hsto
  subst hp2
  rw [← hdb2]
  exact ⟨rfl, h4, h5, h6, h1, h2, h3⟩

theorem find?_map_replace {l : List Payment} {p : Payment} {s : String}
    (hall : ∀ q ∈ l, q.transaction_id ≠ s) (hp : p.transaction_id = s)
    (hmem : ∃ u ∈ l, u.id = p.id) :
    (l.map (fun u => if u.id == p.id then p else u)).find?
      (fun q => q.transaction_id == s) = some p := by
  induction l with
  | nil =>
    obtain ⟨u, hu, _⟩ := hmem
    cases hu
  | cons u us ih =>
    simp only [List.map_cons]
    by_cases hid : u.id = p.id
    · rw [if_pos (by simpa using hid)]
      rw [List.find?_cons_of_pos]
      simp [hp]
    · rw [if_neg (by simpa using hid)]
      rw [List.find?_cons_of_neg]
      · apply ih
        · intro q hq
          exact hall q (List.mem_cons_of_mem _ hq)
        · obtain ⟨v, hv, hvid⟩ := hmem
          rcases List.mem_cons.mp hv with h | h
          · exact absurd (h ▸ hvid) hid
          · exact ⟨v, h, hvid⟩
      · simp [hall u (List.mem_cons_self u us)]

theorem find?_upsertPayment_tid {l : List Payment} {p : Payment} {s : String}
    (hall : ∀ q ∈ l, q.transaction_id ≠ s) (hp : p.transaction_id = s) :
    (upsertPayment l p).find? (fun q => q.transaction_id == s) = some p := by
  unfold upsertPayment
  split
  · rename_i hany
    apply find?_map_replace hall hp
    rw [List.any_eq_true] at hany
    obtain ⟨u, hu, he⟩ := hany
    exact ⟨u, hu, by simpa using he⟩
  · rw [List.find?_cons_of_pos]
    simp [hp]



/-- C4. Payment idempotence: with a non-empty `transactionId`, (i) when a
payment with that `transaction_id` exists, `record_payment_safe` returns the
first such payment unchanged — no new row, no re-validation (no hypothesis on
the ticket or amount is needed); (ii) after any successful call, a second
call with the same `transactionId` and arbitrary other arguments returns the
very same payment and leaves the store unchanged, so two sequential calls
yield exactly one `Payment`. -/
theorem C4_payment_idempotence
    (db : DB) (ticket_id method_id : Nat) (amount : Int) (currency : String)
    (cashierId office_id : Option Nat) (transaction_id : String) (confirm : Bool)
    (newId now : Nat) (htid : transaction_id ≠ "") :
    (∀ p, db.payments.find? (fun q => q.transaction_id == transaction_id) = some p →
      record_payment_safe db ticket_id method_id amount currency cashierId office_id
        transaction_id confirm newId now = Except.ok (p, db))
    ∧ (∀ p1 db1 (tk2 mk2 : Nat) (amount2 : Int) (cur2 : String) (ca2 of2 : Option Nat)
        (confirm2 : Bool) (newId2 now2 : Nat),
        record_payment_safe db ticket_id method_id amount currency cashierId office_id
          transaction_id confirm newId now = Except.ok (p1, db1) →
        record_payment_safe db1 tk2 mk2 amount2 cur2 ca2 of2 transaction_id confirm2
          newId2 now2 = Except.ok (p1, db1)) := by
  have htidb : (transaction_id != "") = true := by simpa using htid
  constructor
  · intro p hfind
    unfold record_payment_safe
    rw [if_pos htidb, hfind]
  · intro p1 db1 tk2 mk2 amount2 cur2 ca2 of2 confirm2 newId2 now2 hok
    have key : db1.payments.find? (fun q => q.transaction_id == transaction_id) = some p1 := by
      unfold record_payment_safe at hok
      rw [if_pos htidb] at hok
      cases hfind : db.payments.find? (fun q => q.transaction_id == transaction_id) with
      | some existing =>
        rw [hfind] at hok
        simp only [Except.ok.injEq, Prod.mk.injEq] at hok
        rw [← hok.2, hfind, hok.1]
      | none =>
        rw [hfind] at hok
        have hall : ∀ q ∈ db.payments, q.transaction_id ≠ transaction_id := by
          rw [List.find?_eq_none] at hfind
          intro q hq
          simpa using hfind q hq
        rw [exc_bind_ok] at hok
        obtain ⟨tk, htk, hok⟩ := hok
        rw [exc_bind_ok] at hok
        obtain ⟨ug, hguard, hok⟩ := hok
        rw [exc_bind_ok] at hok
        obtain ⟨u0, hover, hok⟩ := hok
        rw [exc_bind_ok] at hok
        obtain ⟨u1, hcl, hok⟩ := hok
        rw [exc_bind_ok] at hok
        obtain ⟨d, hsave, hok⟩ := hok
        obtain ⟨d1, d2⟩ := d
        rw [exc_bind_ok] at hok
        obtain ⟨dbX, hsto, hok⟩ := hok
        simp only [Except.ok.injEq, Prod.mk.injEq] at hok
        obtain ⟨hp1, hdb1⟩ := hok
        obtain ⟨hps, hpay, h3, h4, h5, h6, h7⟩ := paymentSave_shape hsave
        obtain ⟨g1, g2, g3, hsp, g5, g6⟩ := saveTicketOf_frame hsto
        rw [← hdb1, hsp, hpay, ← hp1]
        apply find?_upsertPayment_tid hall
        rw [hps]
        split <;> rfl
    unfold record_payment_safe
    rw [if_pos htidb, key]


/-- … and a PENDING payment 25 of 10.00 recorded with `transactionId`
"tx9". -/
def demoDB8 : DB :=
  dbAfter (record_payment_safe demoDB1 11 1 1000 "BOB" none none "tx9" false 25 110) demoDB1

/-- C4, witnessed: replaying "tx9" with different amount, currency and
confirm flag returns the stored payment 25 unchanged. -/
theorem C4_payment_idempotence_witness :
    record_payment_safe demoDB8 11 1 5555 "USD" none none "tx9" true 26 111 =
      Except.ok (⟨25, 11, 1, 1000, "BOB", "tx9", PStatus.PENDING, none, none, none⟩,
        demoDB8) :=
  (C4_payment_idempotence demoDB8 11 1 5555 "USD" none none "tx9" true 26 111
    (by decide)).1 ⟨25, 11, 1, 1000, "BOB", "tx9", PStatus.PENDING, none, none, none⟩
    (by rfl)

theorem stampRefund_id (r : Refund) (now : Nat) : (stampRefund r now).id = r.id := by
  unfold stampRefund
  split <;> rfl

theorem stampRefund_amount (r : Refund) (now : Nat) :
    (stampRefund r now).amount = r.amount := by
  unfold stampRefund
  split <;> rfl

theorem stampRefund_paymentId (r : Refund) (now : Nat) :
    (stampRefund r now).paymentId = r.paymentId := by
  unfold stampRefund
  split <;> rfl

theorem mem_upsertPayment {l : List Payment} {p q : Payment}
    (hq : q ∈ upsertPayment l p) : q = p ∨ q ∈ l := by
  unfold upsertPayment at hq
  split at hq
  · rw [List.mem_map] at hq
    obtain ⟨u, hu, he⟩ := hq
    by_cases hid : (u.id == p.id) = true
    · rw [if_pos hid] at he
      exact Or.inl he.symm
    · rw [if_neg hid] at he
      exact Or.inr (he ▸ hu)
  · rcases List.mem_cons.mp hq with h | h
    · exact Or.inl h
    · exact Or.inr h

theorem refunded_total_congr {db db2 : DB} {q q2 : Payment}
    (hr : db2.refunds = db.refunds) (hq : q2.id = q.id) :
    refunded_total db2 q2 = refunded_total db q := by
  simp [refunded_total, hr, hq]

theorem refunded_total_cons {db db2 : DB} {q : Payment} {r : Refund}
    (hr : db2.refunds = r :: db.refunds) :
    refunded_total db2 q =
      (if r.paymentId == q.id && r.status == RStatus.CONFIRMED then r.amount else 0) +
        refunded_total db q := by
  unfold refunded_total
  rw [hr, List.filter_cons]
  split
  · simp
  · simp

theorem refundAdjustPayment_shape {db1 : DB} {p : Payment} {now : Nat} {dbM : DB}
    (h : refundAdjustPayment db1 p now = Except.ok dbM) :
    dbM.refunds = db1.refunds ∧ dbM.receipts = db1.receipts ∧
    (dbM.payments = db1.payments ∨
      ∃ st, (st = PStatus.PARTIALLY_REFUNDED ∨ st = PStatus.REFUNDED) ∧
        dbM.payments = upsertPayment db1.payments { p with status := st }) := by
  unfold refundAdjustPayment at h
  split at h
  · simp only [Except.ok.injEq] at h
    rw [← h]
    exact ⟨rfl, rfl, Or.inl rfl⟩
  · split at h
    · split at h
      · cases hps : paymentSave db1 { p with status := PStatus.PARTIALLY_REFUNDED } now with
        | error e => rw [hps] at h; cases h
        | ok pr =>
          obtain ⟨pp, dbP⟩ := pr
          rw [hps] at h
          simp only [Except.map, Except.ok.injEq] at h
          obtain ⟨hpp, hpay, hrf, hrc, _, _, _⟩ := paymentSave_shape hps
          have hpp2 : pp = { p with status := PStatus.PARTIALLY_REFUNDED } := by
            rw [hpp, if_neg]
            simp
          rw [← h]
          exact ⟨hrf, hrc, Or.inr ⟨PStatus.PARTIALLY_REFUNDED, Or.inl rfl,
            by rw [hpay, hpp2]⟩⟩
      · simp only [Except.ok.injEq] at h
        rw [← h]
        exact ⟨rfl, rfl, Or.inl rfl⟩
    · split at h
      · cases hps : paymentSave db1 { p with status := PStatus.REFUNDED } now with
        | error e => rw [hps] at h; cases h
        | ok pr =>
          obtain ⟨pp, dbP⟩ := pr
          rw [hps] at h
          simp only [Except.map, Except.ok.injEq] at h
          obtain ⟨hpp, hpay, hrf, hrc, _, _, _⟩ := paymentSave_shape hps
          have hpp2 : pp = { p with status := PStatus.REFUNDED } := by
            rw [hpp, if_neg]
            simp
          rw [← h]
          exact ⟨hrf, hrc, Or.inr ⟨PStatus.REFUNDED, Or.inr rfl, by rw [hpay, hpp2]⟩⟩
      · simp only [Except.ok.injEq] at h
        rw [← h]
        exact ⟨rfl, rfl, Or.inl rfl⟩

theorem refundFinish_shape {db1 : DB} {r' r2 : Refund} {now : Nat} {db2 : DB}
    (h : refundFinish db1 r' now = Except.ok (r2, db2)) :
    r2 = r' ∧ db2.refunds = db1.refunds ∧
    (db2.payments = db1.payments ∨
      ∃ p st, findPayment db1 r'.paymentId = some p ∧
        (st = PStatus.PARTIALLY_REFUNDED ∨ st = PStatus.REFUNDED) ∧
        db2.payments = upsertPayment db1.payments { p with status := st }) := by
  unfold refundFinish at h
  split at h
  · simp only [Except.ok.injEq, Prod.mk.injEq] at h
    exact ⟨h.1.symm, by rw [← h.2], Or.inl (by rw [← h.2])⟩
  · rename_i p hP
    rw [exc_bind_ok] at h
    obtain ⟨dbM, hadj, h⟩ := h
    rw [exc_bind_ok] at h
    obtain ⟨db3, hsto, h⟩ := h
    simp only [Except.ok.injEq, Prod.mk.injEq] at h
    obtain ⟨hr2, hdb2⟩ := h
    obtain ⟨f1, f2, f3, fpay, fref, frc⟩ := saveTicketOf_frame hsto
    obtain ⟨a1, a2, a3⟩ := refundAdjustPayment_shape hadj
    refine ⟨hr2.symm, ?_, ?_⟩
    · rw [← hdb2, fref, a1]
    · rcases a3 with hL | ⟨st, hst, hup⟩
      · exact Or.inl (by rw [← hdb2, fpay, hL])
      · exact Or.inr ⟨p, st, hP, hst, by rw [← hdb2, fpay, hup]⟩

theorem refundSave_shape {db : DB} {r r2 : Refund} {now : Nat} {db2 : DB}
    (h : refundSave db r now = Except.ok (r2, db2))
    (hfresh : ∀ u ∈ db.refunds, u.id ≠ r.id) :
    r2 = stampRefund r now ∧
    db2.refunds = stampRefund r now :: db.refunds ∧
    (db2.payments = db.payments ∨
      ∃ p st, findPayment db (stampRefund r now).paymentId = some p ∧
        (st = PStatus.PARTIALLY_REFUNDED ∨ st = PStatus.REFUNDED) ∧
        db2.payments = upsertPayment db.payments { p with status := st }) := by
  unfold refundSave at h
  rw [exc_bind_ok] at h
  obtain ⟨u0, hcl, h⟩ := h
  have hcons : upsertRefund db.refunds (stampRefund r now) =
      stampRefund r now :: db.refunds := by
    apply upsertRefund_fresh
    intro u hu
    rw [stampRefund_id]
    exact hfresh u hu
  obtain ⟨hr2, hrefs, hpays⟩ := refundFinish_shape h
  refine ⟨hr2, ?_, ?_⟩
  · rw [hrefs]
    exact hcons
  · exact hpays

theorem refundChecks_ok {db : DB} {p : Payment} {a : Int}
    (h : refundChecks db p a = Except.ok ()) :
    0 < a ∧ a ≤ refundable_remaining db p := by
  unfold refundChecks at h
  split at h
  · cases h
  · split at h
    · cases h
    · split at h
      · cases h
      · rename_i h1 h2
        constructor
        · omega
        · omega

/-- C5. Refund bound: against a found payment, `create_refund_safe` rejects a
payment outside CONFIRMED / PARTIALLY_REFUNDED with `paymentNotRefundable`,
a non-positive amount with `invalidRefundAmount`, and an amount above
`refundable_remaining` with `refundExceedsBalance` — each error rolls the
transaction back, leaving the payment, its status and its refunds unchanged;
and every successful call preserves the invariant that each payment's
CONFIRMED refunds sum to at most its amount. -/
theorem C5_refund_bound
    (db : DB) (payment_id : Nat) (amount : Int) (reason : String)
    (processedById : Option Nat) (confirm_immediately : Bool) (newId now : Nat)
    (p : Payment) (hp : findPayment db payment_id = some p)
    (hnodup : (db.payments.map Payment.id).Nodup)
    (hfresh : ∀ u ∈ db.refunds, u.id ≠ newId) :
    ((p.status ≠ PStatus.CONFIRMED ∧ p.status ≠ PStatus.PARTIALLY_REFUNDED) →
      create_refund_safe db payment_id amount reason processedById confirm_immediately
        newId now = Except.error Err.paymentNotRefundable)
    ∧ ((p.status = PStatus.CONFIRMED ∨ p.status = PStatus.PARTIALLY_REFUNDED) →
        amount ≤ 0 →
        create_refund_safe db payment_id amount reason processedById confirm_immediately
          newId now = Except.error Err.invalidRefundAmount)
    ∧ ((p.status = PStatus.CONFIRMED ∨ p.status = PStatus.PARTIALLY_REFUNDED) →
        0 < amount → amount > refundable_remaining db p →
        create_refund_safe db payment_id amount reason processedById confirm_immediately
          newId now = Except.error Err.refundExceedsBalance)
    ∧ (∀ r2 db2, create_refund_safe db payment_id amount reason processedById
        confirm_immediately newId now = Except.ok (r2, db2) →
        refundBound db → refundBound db2) := by
  refine ⟨?_, ?_, ?_, ?_⟩
  · intro hst
    unfold create_refund_safe
    rw [hp]
    simp only [getOr, ok_bind]
    have hg : refundChecks db p amount = Except.error Err.paymentNotRefundable := by
      unfold refundChecks
      rw [if_pos (by simp [hst.1, hst.2])]
    rw [hg, error_bind]
  · intro hst hneg
    unfold create_refund_safe
    rw [hp]
    simp only [getOr, ok_bind]
    have hg : refundChecks db p amount = Except.error Err.invalidRefundAmount := by
      unfold refundChecks
      rw [if_neg (by rcases hst with h | h <;> simp [h]), if_pos hneg]
    rw [hg, error_bind]
  · intro hst hpos hbig
    unfold create_refund_safe
    rw [hp]
    simp only [getOr, ok_bind]
    have hg : refundChecks db p amount = Except.error Err.refundExceedsBalance := by
      unfold refundChecks
      rw [if_neg (by rcases hst with h | h <;> simp [h]), if_neg (by omega), if_pos hbig]
    rw [hg, error_bind]
  · intro r2 db2 hok hbound
    unfold create_refund_safe at hok
    rw [hp] at hok
    simp only [getOr, ok_bind] at hok
    rw [exc_bind_ok] at hok
    obtain ⟨ug, hguard, hok⟩ := hok
    obtain ⟨hpos, hrem⟩ := refundChecks_ok (by cases ug; exact hguard)
    rw [exc_bind_ok] at hok
    obtain ⟨uc, hcl, hok⟩ := hok
    obtain ⟨hr2, hrefs, hpays⟩ := refundSave_shape hok (by
      intro u hu
      exact hfresh u hu)
    rw [← hr2] at hrefs hpays
    have hpmem : p ∈ db.payments := List.mem_of_find?_eq_some hp
    have hsPid : r2.paymentId = p.id := by rw [hr2, stampRefund_paymentId]
    have hsAmt : r2.amount = amount := by rw [hr2, stampRefund_amount]
    intro q hq
    have hdelta := refunded_total_cons (q := q) hrefs
    have hqorigin : ∃ q0 ∈ db.payments, q0.id = q.id ∧ q0.amount = q.amount := by
      rcases hpays with hL | ⟨pw, st, hfw, hstw, hup⟩
      · rw [hL] at hq
        exact ⟨q, hq, rfl, rfl⟩
      · rw [hup] at hq
        rcases mem_upsertPayment hq with he | hmem
        · refine ⟨pw, List.mem_of_find?_eq_some hfw, ?_, ?_⟩ <;> rw [he]
        · exact ⟨q, hmem, rfl, rfl⟩
    obtain ⟨q0, hq0mem, hq0id, hq0amt⟩ := hqorigin
    have hq0tot : refunded_total db q = refunded_total db q0 := by
      simp [refunded_total, hq0id]
    rw [hdelta, hq0tot, ← hq0amt]
    by_cases hcond : (r2.paymentId == q.id && r2.status == RStatus.CONFIRMED) = true
    · rw [if_pos hcond]
      rw [Bool.and_eq_true, beq_iff_eq, beq_iff_eq] at hcond
      have hqid : q.id = p.id := by rw [← hcond.1, hsPid]
      have hq0p : q0 = p :=
        List.inj_on_of_nodup_map hnodup hq0mem hpmem (by rw [hq0id, hqid])
      rw [hsAmt, hq0p]
      unfold refundable_remaining at hrem
      omega
    · rw [if_neg hcond]
      have := hbound q0 hq0mem
      omega


/-- C5, witnessed: on the fully-paid demo store, refunding 70.00 against the
60.00 payment 21 fails with `refundExceedsBalance`. -/
theorem C5_refund_bound_witness :
    create_refund_safe demoDB3 21 7000 "" none true 33 112 =
      Except.error Err.refundExceedsBalance :=
  (C5_refund_bound demoDB3 21 7000 "" none true 33 112
    ⟨21, 11, 1, 6000, "BOB", "", PStatus.CONFIRMED, none, none, some 101⟩
    (by rfl) (by decide) (by decide)).2.2.1 (Or.inl rfl) (by decide) (by decide)

/-- C8, counterexample: after cancelling the unpaid ticket 11, every ticket
on `(departure 7, seat 3)` is CANCELLED and the inputs are otherwise valid,
yet re-creating the seat with the same origin and destination as the
CANCELLED ticket fails: `full_clean`'s uniqueness validation of
`Ticket.Meta.unique_together = (departure, seat, origin, destination)` also
counts CANCELLED rows. -/
theorem C8_cancelled_reuse_counterexample :
    (cancel_ticket_safe demoDB1 11 107).isOk = true
    ∧ (findTicket demoDB6 11).map Ticket.status = some TStatus.CANCELLED
    ∧ (∀ t ∈ demoDB6.tickets, nonCancelledOn 7 3 t = false)
    ∧ create_ticket_safe demoDB6 2 7 3 1 2 1 1 10000 TStatus.RESERVED 12 108 =
        Except.error Err.uniqueViolation :=
  ⟨rfl, rfl, by decide, rfl⟩

/-- C8, amended: when every existing ticket on `(departure, seat)` is
CANCELLED, the inputs are valid (active seat on the departure's bus,
origin before destination on the route, nonzero ids, fresh primary key) and —
the amendment — no existing ticket of any status carries the exact same
`(departure, seat, origin, destination)` tuple, `create_ticket_safe`
succeeds and persists the new ticket. -/
theorem C8_cancelled_reuse_amended
    (db : DB) (passengerId departure_id seat_id origin_id destination_id
      office_sold_id sellerId : Nat) (price : Int) (newId now : Nat)
    (seat : Seat) (dep : Departure) (o d : Nat)
    (hseat : findSeat db seat_id = some seat)
    (hactive : seat.active = true)
    (hdep : findDeparture db departure_id = some dep)
    (hbus : dep.busId = seat.busId)
    (ho : stopOrder db dep.routeId origin_id = some o)
    (hd : stopOrder db dep.routeId destination_id = some d)
    (hlt : o < d)
    (hsz : seat_id ≠ 0) (hdz : departure_id ≠ 0) (hoz : origin_id ≠ 0)
    (hdsz : destination_id ≠ 0)
    (hcanc : ∀ t ∈ db.tickets, t.departureId = departure_id → t.seatId = seat_id →
      t.status = TStatus.CANCELLED)
    (huniq : ∀ t ∈ db.tickets, ¬(t.departureId = departure_id ∧ t.seatId = seat_id ∧
      t.originId = origin_id ∧ t.destinationId = destination_id))
    (hfresh : ∀ u ∈ db.tickets, u.id ≠ newId) :
    ∃ t2 db2, create_ticket_safe db passengerId departure_id seat_id origin_id
      destination_id office_sold_id sellerId price TStatus.RESERVED newId now =
      Except.ok (t2, db2) ∧
      db2.tickets = t2 :: db.tickets ∧
      t2.id = newId ∧ t2.departureId = departure_id ∧ t2.seatId = seat_id ∧
      t2.originId = origin_id ∧ t2.destinationId = destination_id ∧
      t2.status ≠ TStatus.CANCELLED := by
  have hid : seat.id = seat_id := findSeat_id hseat
  have hclean : ticketFullClean db
      { id := newId, passengerId := passengerId, departureId := departure_id,
        seatId := seat.id, originId := origin_id, destinationId := destination_id,
        officeSoldId := office_sold_id, sellerId := sellerId,
        status := TStatus.RESERVED, price := price, paid_at := none } = Except.ok () := by
    have hseat2 : findSeat db seat.id = some seat := by rw [hid]; exact hseat
    have hlt2 : ¬(o ≥ d) := not_le.mpr hlt
    have c7 : (db.tickets.any fun u => u.id != newId && u.departureId == departure_id &&
        u.seatId == seat.id && u.originId == origin_id &&
        u.destinationId == destination_id) = false := by
      rw [List.any_eq_false]
      intro u hu
      intro hcontra
      simp only [Bool.and_eq_true, beq_iff_eq, bne_iff_ne] at hcontra
      exact huniq u hu ⟨hcontra.1.1.1.2, by rw [hcontra.1.1.2, hid], hcontra.1.2, hcontra.2⟩
    have h7 : ¬ ∃ x ∈ db.tickets,
        ((((¬x.id = newId ∧ x.departureId = departure_id) ∧ x.seatId = seat_id) ∧
          x.originId = origin_id) ∧ x.destinationId = destination_id) := by
      rintro ⟨u, hu, ⟨⟨⟨_, h1⟩, h2⟩, h3⟩, h4⟩
      exact huniq u hu ⟨h1, h2, h3, h4⟩
    unfold ticketFullClean ticketClean ticketValidateUnique
    simp [getOr, hseat, hseat2, hdep, ho, hd, hid, hsz, hdz, hoz, hdsz, hactive, hbus,
      hlt2, h7, ok_bind, pure_bind_exc, throw_exc, error_bind]
  have hconf : (db.tickets.any fun u => u.departureId == departure_id &&
      u.seatId == seat.id && u.status != TStatus.CANCELLED) = false := by
    rw [List.any_eq_false]
    intro u hu hcontra
    simp only [Bool.and_eq_true, beq_iff_eq, bne_iff_ne] at hcontra
    exact hcontra.2 (hcanc u hu hcontra.1.1 (by rw [hcontra.1.2, hid]))
  unfold create_ticket_safe
  rw [hseat]
  simp only [getOr, ok_bind]
  rw [if_neg (by simp [hconf])]
  simp only [pure_bind_exc]
  rw [hclean]
  simp only [ok_bind]
  unfold ticketSave
  rw [hclean]
  simp only [ok_bind]
  refine ⟨_, _, rfl, ?_, ?_, ?_, ?_, ?_, ?_, ?_⟩
  · refine upsertTicket_fresh ?_
    intro u hu
    split <;> exact hfresh u hu
  · split <;> rfl
  · split <;> rfl
  · split <;> exact hid
  · split <;> rfl
  · split <;> rfl
  · split <;> simp

/-- C8, amended and witnessed: the cancelled demo seat is resold for the
different sub-route office 1 → office 3. -/
theorem C8_cancelled_reuse_amended_witness :
    ∃ t2 db2, create_ticket_safe demoDB6 2 7 3 1 3 1 1 10000 TStatus.RESERVED 12 108 =
      Except.ok (t2, db2) ∧
      db2.tickets = t2 :: demoDB6.tickets ∧
      t2.id = 12 ∧ t2.departureId = 7 ∧ t2.seatId = 3 ∧
      t2.originId = 1 ∧ t2.destinationId = 3 ∧
      t2.status ≠ TStatus.CANCELLED :=
  C8_cancelled_reuse_amended demoDB6 2 7 3 1 3 1 1 10000 12 108
    ⟨3, 1, true⟩ ⟨7, 1, 1⟩ 0 2 (by rfl) (by rfl) (by rfl) (by rfl) (by rfl) (by rfl)
    (by decide) (by decide) (by decide) (by decide) (by decide)
    (by decide) (by decide) (by decide)

/-- C10. `confirm_payment_safe` does not treat PARTIALLY_REFUNDED as
already-confirmed: in the reachable state built by a 60.00 and a 40.00
confirmed payment followed by a 30.00 confirmed refund against payment 21
(which makes payment 21 PARTIALLY_REFUNDED on the PAID ticket),
`confirm_payment_safe` succeeds and overwrites payment 21's status to
CONFIRMED — its due recomputation (price 100.00 minus the other payment's
40.00 net of the ticket's 30.00 confirmed refunds = 90.00 ≥ 60.00) passes
because it excludes the payment's own amount while still subtracting that
payment's own refunds. -/
theorem C10_confirm_overwrites_partly_refunded :
    (create_ticket_safe demoCatalog 1 7 3 1 2 1 1 10000 TStatus.RESERVED 11 100).isOk = true
    ∧ (record_payment_safe demoDB1 11 1 6000 "BOB" none none "" true 21 101).isOk = true
    ∧ (record_payment_safe demoDB2 11 1 4000 "BOB" none none "" true 22 102).isOk = true
    ∧ (create_refund_safe demoDB3 21 3000 "" none true 31 103).isOk = true
    ∧ (findPayment demoDB4 21).map Payment.status = some PStatus.PARTIALLY_REFUNDED
    ∧ (findTicket demoDB4 11).map Ticket.status = some TStatus.PAID
    ∧ ((confirm_payment_safe demoDB4 21 104).toOption.map
        (fun pr => (pr.1.status, (findPayment pr.2 21).map Payment.status))) =
      some (PStatus.CONFIRMED, some PStatus.CONFIRMED) :=
  ⟨rfl, rfl, rfl, rfl, rfl, rfl, rfl⟩

end Sales

namespace Sales

theorem stampRefund_status (r : Refund) (now : Nat) :
    (stampRefund r now).status = r.status := by
  unfold stampRefund
  split <;> rfl

theorem sum_amounts_replace (l : List Payment) (p p2 : Payment) (pred : Payment → Bool)
    (hrep : ∀ u ∈ l, (u.id == p2.id) = true → u = p)
    (hpred : pred p2 = pred p) (ha : p2.amount = p.amount) :
    (((l.map (fun u => if u.id == p2.id then p2 else u)).filter pred).map Payment.amount).sum
      = ((l.filter pred).map Payment.amount).sum := by
  induction l with
  | nil => rfl
  | cons u us ih =>
    have ihtail := ih (fun v hv he => hrep v (List.mem_cons_of_mem _ hv) he)
    simp only [List.map_cons]
    by_cases hid : (u.id == p2.id) = true
    · rw [if_pos hid]
      have hu : u = p := hrep u (List.mem_cons_self u us) hid
      subst hu
      rw [List.filter_cons, List.filter_cons, hpred]
      split
      · simp only [List.map_cons, List.sum_cons]
        rw [ha, ihtail]
      · exact ihtail
    · rw [if_neg hid]
      rw [List.filter_cons, List.filter_cons]
      split
      · simp only [List.map_cons, List.sum_cons]
        rw [ihtail]
      · exact ihtail

theorem any_replace (l : List Payment) (p p2 : Payment) (pred : Payment → Bool)
    (hrep : ∀ u ∈ l, (u.id == p2.id) = true → u = p)
    (hpred : pred p2 = pred p) :
    (l.map (fun u => if u.id == p2.id then p2 else u)).any pred = l.any pred := by
  induction l with
  | nil => rfl
  | cons u us ih =>
    have ihtail := ih (fun v hv he => hrep v (List.mem_cons_of_mem _ hv) he)
    simp only [List.map_cons, List.any_cons]
    by_cases hid : (u.id == p2.id) = true
    · rw [if_pos hid]
      have hu : u = p := hrep u (List.mem_cons_self u us) hid
      subst hu
      rw [hpred, ihtail]
    · rw [if_neg hid]
      rw [ihtail]

theorem find?_id_map_replace {l : List Payment} {p p2 : Payment}
    (hrep : ∀ u ∈ l, (u.id == p2.id) = true → u = p)
    (hfind : l.find? (fun q => q.id == p.id) = some p)
    (hid : p2.id = p.id) :
    (l.map (fun u => if u.id == p2.id then p2 else u)).find?
      (fun q => q.id == p.id) = some p2 := by
  induction l with
  | nil => cases hfind
  | cons u us ih =>
    simp only [List.map_cons]
    by_cases hu : (u.id == p2.id) = true
    · rw [if_pos hu]
      rw [List.find?_cons_of_pos]
      simp [hid]
    · rw [if_neg hu]
      rw [List.find?_cons_of_neg]
      · apply ih (fun v hv he => hrep v (List.mem_cons_of_mem _ hv) he)
        rw [List.find?_cons_of_neg] at hfind
        · exact hfind
        · simp only [beq_iff_eq] at hu ⊢
          rw [← hid]
          exact hu
      · simp only [beq_iff_eq] at hu ⊢
        rw [← hid]
        exact hu

theorem upsertPayment_replace {l : List Payment} {p p2 : Payment}
    (hmem : p ∈ l) (hid : p2.id = p.id) :
    upsertPayment l p2 = l.map (fun u => if u.id == p2.id then p2 else u) := by
  unfold upsertPayment
  rw [if_pos]
  rw [List.any_eq_true]
  exact ⟨p, hmem, by simp [hid]⟩

theorem upsertTicket_self {l : List Ticket} {tk : Ticket}
    (hn : (l.map Ticket.id).Nodup) (hmem : tk ∈ l) :
    upsertTicket l tk = l := by
  unfold upsertTicket
  rw [if_pos (List.any_eq_true.mpr ⟨tk, hmem, by simp⟩)]
  have : ∀ u ∈ l, (if u.id == tk.id then tk else u) = u := by
    intro u hu
    by_cases hid : (u.id == tk.id) = true
    · rw [if_pos hid]
      exact (List.inj_on_of_nodup_map hn hu hmem (by simpa using hid)).symm
    · rw [if_neg hid]
  calc l.map (fun u => if u.id == tk.id then tk else u) = l.map id := by
        apply List.map_congr_left
        intro u hu
        rw [this u hu]
        rfl
    _ = l := List.map_id l

theorem saveTicketOf_noop {db : DB} {tid now : Nat} {db3 : DB}
    (h : saveTicketOf db tid now = Except.ok db3) (tk : Ticket)
    (htk : findTicket db tid = some tk)
    (hcond : (tk.status != TStatus.CANCELLED && amount_due db tk == 0 &&
      tk.paid_at == none) = false)
    (hn : (db.tickets.map Ticket.id).Nodup) : db3 = db := by
  unfold saveTicketOf at h
  split at h
  case h_2 heq =>
    rw [htk] at heq
    cases heq
  case h_1 t heq =>
  rw [htk] at heq
  injection heq with heq2
  subst heq2
  cases hs : ticketSave db tk now with
  | error e => rw [hs] at h; cases h
  | ok pr =>
    obtain ⟨t2, dbX⟩ := pr
    rw [hs] at h
    simp only [Except.map, Except.ok.injEq] at h
    unfold ticketSave at hs
    rw [exc_bind_ok] at hs
    obtain ⟨u, hc, hs⟩ := hs
    rw [if_neg (by simp [hcond])] at hs
    simp only [Except.ok.injEq, Prod.mk.injEq] at hs
    obtain ⟨ht2, hdbX⟩ := hs
    rw [← h, ← hdbX]
    rw [upsertTicket_self hn (List.mem_of_find?_eq_some htk)]

theorem paymentSave_noop {db : DB} {p : Payment} {now : Nat} {p2 : Payment} {db2 : DB}
    (h : paymentSave db p now = Except.ok (p2, db2)) (tk : Ticket)
    (htk : findTicket db p.ticketId = some tk)
    (hpa : (tk.paid_at == none) = false)
    (hn : (db.tickets.map Ticket.id).Nodup) :
    p2 = stampPayment p now ∧
    db2 = { db with payments := upsertPayment db.payments (stampPayment p now) } := by
  unfold paymentSave at h
  rw [exc_bind_ok] at h
  obtain ⟨u, hc, h⟩ := h
  rw [exc_bind_ok] at h
  obtain ⟨dbX, hsto, h⟩ := h
  simp only [Except.ok.injEq, Prod.mk.injEq] at h
  obtain ⟨hp2, hdb2⟩ := h
  have htid : (stampPayment p now).ticketId = p.ticketId := by
    unfold stampPayment
    split <;> rfl
  rw [htid] at hsto
  have hdbXeq : dbX =
      { db with payments := upsertPayment db.payments (stampPayment p now) } := by
    refine saveTicketOf_noop hsto tk ?_ ?_ ?_
    · exact htk
    · simp [hpa]
    · exact hn
  exact ⟨hp2.symm, by rw [← hdb2, hdbXeq]⟩

theorem refundAdjustPayment_confirmed {db1 : DB} {p : Payment} {now : Nat} {dbM : DB}
    (h : refundAdjustPayment db1 p now = Except.ok dbM) (tk : Ticket)
    (hst : p.status = PStatus.CONFIRMED)
    (hpos : refunded_total db1 p ≠ 0)
    (htk : findTicket db1 p.ticketId = some tk)
    (hpa : (tk.paid_at == none) = false)
    (hn : (db1.tickets.map Ticket.id).Nodup) :
    dbM = { db1 with payments := upsertPayment db1.payments
                       { p with status :=
                          if refunded_total db1 p < p.amount then PStatus.PARTIALLY_REFUNDED
                          else PStatus.REFUNDED } } := by
  unfold refundAdjustPayment at h
  rw [if_neg (by simpa using hpos)] at h
  split at h
  · rename_i hlt
    rw [if_pos (by simp [hst])] at h
    cases hps : paymentSave db1 { p with status := PStatus.PARTIALLY_REFUNDED } now with
    | error e => rw [hps] at h; cases h
    | ok pr =>
      obtain ⟨pp, dbP⟩ := pr
      rw [hps] at h
      simp only [Except.map, Except.ok.injEq] at h
      have hnp : pp = stampPayment { p with status := PStatus.PARTIALLY_REFUNDED } now ∧
          dbP = { db1 with payments := upsertPayment db1.payments
                            (stampPayment { p with status := PStatus.PARTIALLY_REFUNDED } now) } := by
        refine paymentSave_noop hps tk ?_ hpa ?_
        · exact htk
        · exact hn
      obtain ⟨hpp, hdbP⟩ := hnp
      have hsp : stampPayment { p with status := PStatus.PARTIALLY_REFUNDED } now =
          { p with status := PStatus.PARTIALLY_REFUNDED } := by
        unfold stampPayment
        rw [if_neg]
        simp
      rw [← h, hdbP, hsp, if_pos hlt]
  · rename_i hge
    rw [if_pos (by simp [hst])] at h
    cases hps : paymentSave db1 { p with status := PStatus.REFUNDED } now with
    | error e => rw [hps] at h; cases h
    | ok pr =>
      obtain ⟨pp, dbP⟩ := pr
      rw [hps] at h
      simp only [Except.map, Except.ok.injEq] at h
      have hnp : pp = stampPayment { p with status := PStatus.REFUNDED } now ∧
          dbP = { db1 with payments := upsertPayment db1.payments
                            (stampPayment { p with status := PStatus.REFUNDED } now) } := by
        refine paymentSave_noop hps tk ?_ hpa ?_
        · exact htk
        · exact hn
      obtain ⟨hpp, hdbP⟩ := hnp
      have hsp : stampPayment { p with status := PStatus.REFUNDED } now =
          { p with status := PStatus.REFUNDED } := by
        unfold stampPayment
        rw [if_neg]
        simp
      rw [← h, hdbP, hsp, if_neg hge]

theorem refundOnTicket_replace {db db2 : DB} {p p2 : Payment} {tid : Nat}
    (hpay : db2.payments = db.payments.map (fun u => if u.id == p2.id then p2 else u))
    (hrep : ∀ u ∈ db.payments, (u.id == p2.id) = true → u = p)
    (hid : p2.id = p.id) (ht : p2.ticketId = p.ticketId) :
    ∀ r, refundOnTicket db2 tid r = refundOnTicket db tid r := by
  intro r
  unfold refundOnTicket
  rw [hpay]
  apply any_replace _ p p2 _ hrep
  rw [hid, ht]

theorem ticketConfirmedSum_replace {db db2 : DB} {p p2 : Payment} {tid : Nat}
    (hpay : db2.payments = db.payments.map (fun u => if u.id == p2.id then p2 else u))
    (hrep : ∀ u ∈ db.payments, (u.id == p2.id) = true → u = p)
    (ht : p2.ticketId = p.ticketId) (ha : p2.amount = p.amount)
    (hc : confirmedClass p2.status = confirmedClass p.status) :
    ticketConfirmedSum db2 tid = ticketConfirmedSum db tid := by
  unfold ticketConfirmedSum
  rw [hpay]
  apply sum_amounts_replace _ p p2 _ hrep _ ha
  rw [ht, hc]

theorem ticketRefundsSum_step {db db2 : DB} {tid : Nat} {S : Refund}
    (hrefs : db2.refunds = S :: db.refunds)
    (hS : (S.status == RStatus.CONFIRMED && refundOnTicket db2 tid S) = true)
    (hcong : ∀ r, refundOnTicket db2 tid r = refundOnTicket db tid r) :
    ticketRefundsSum db2 tid = S.amount + ticketRefundsSum db tid := by
  unfold ticketRefundsSum
  rw [hrefs, List.filter_cons, if_pos hS]
  simp only [List.map_cons, List.sum_cons]
  have hfe : List.filter (fun r => r.status == RStatus.CONFIRMED && refundOnTicket db2 tid r)
      db.refunds =
      List.filter (fun r => r.status == RStatus.CONFIRMED && refundOnTicket db tid r)
      db.refunds := by
    apply List.filter_congr
    intro r hr
    rw [hcong r]
  rw [hfe]

theorem refundSave_confirmed {db : DB} {r r2 : Refund} {now : Nat} {db2 : DB}
    {p : Payment} {tk : Ticket}
    (h : refundSave db r now = Except.ok (r2, db2))
    (hfresh : ∀ u ∈ db.refunds, u.id ≠ r.id)
    (hrst : r.status = RStatus.CONFIRMED)
    (hrpid : r.paymentId = p.id)
    (hp : findPayment db p.id = some p)
    (hpstat : p.status = PStatus.CONFIRMED)
    (htk : findTicket db p.ticketId = some tk)
    (hpa : (tk.paid_at == none) = false)
    (hnT : (db.tickets.map Ticket.id).Nodup)
    (hprior : 0 ≤ refunded_total db p)
    (hrpos : 0 < r.amount) :
    r2 = stampRefund r now ∧
    db2 = { db with
      refunds := stampRefund r now :: db.refunds,
      payments := upsertPayment db.payments
                    { p with status :=
                       if refunded_total db p + r.amount < p.amount
                       then PStatus.PARTIALLY_REFUNDED else PStatus.REFUNDED } } := by
  unfold refundSave at h
  rw [exc_bind_ok] at h
  obtain ⟨uc, hcl, h⟩ := h
  rw [upsertRefund_fresh (by intro u hu; rw [stampRefund_id]; exact hfresh u hu)] at h
  unfold refundFinish at h
  have hSpid : (stampRefund r now).paymentId = p.id := by rw [stampRefund_paymentId, hrpid]
  split at h
  case h_1 heq =>
    rw [hSpid] at heq
    have heq2 : findPayment db p.id = none := heq
    rw [hp] at heq2
    cases heq2
  case h_2 pw heq =>
    rw [hSpid] at heq
    have heq2 : findPayment db p.id = some pw := heq
    rw [hp] at heq2
    injection heq2 with heq3
    subst heq3
    rw [exc_bind_ok] at h
    obtain ⟨dbM, hadj, h⟩ := h
    rw [exc_bind_ok] at h
    obtain ⟨db3, hsto, h⟩ := h
    simp only [Except.ok.injEq, Prod.mk.injEq] at h
    obtain ⟨hr2, hdb2⟩ := h
    have hrt : refunded_total
        { db with refunds := stampRefund r now :: db.refunds } p =
        r.amount + refunded_total db p := by
      rw [refunded_total_cons rfl]
      rw [if_pos (by simp [hSpid, stampRefund_status, hrst])]
      rw [stampRefund_amount]
    have hadjEq := refundAdjustPayment_confirmed hadj tk hpstat
      (by rw [hrt]; omega) htk hpa hnT
    rw [hadjEq] at hsto
    have hdb3 := saveTicketOf_noop hsto tk htk (by simp [hpa]) hnT
    refine ⟨hr2.symm, ?_⟩
    rw [← hdb2, hdb3]
    rw [hrt]
    rw [Int.add_comm r.amount (refunded_total db p)]

/-- Payment 21 (60.00, confirmed immediately) as stored from `demoDB2` on. -/
def demoPayment21 : Payment :=
  ⟨21, 11, 1, 6000, "BOB", "", PStatus.CONFIRMED, none, none, some 101⟩

/-- Ticket 11 once fully paid: the state it holds in `demoDB3`. -/
def demoTicket11P : Ticket := ⟨11, 1, 7, 3, 1, 2, 1, 1, TStatus.PAID, 10000, some 102⟩

/-- Refund 31 (30.00, confirmed immediately) as `create_refund_safe`
builds and stamps it. -/
def demoRefund31 : Refund := ⟨31, 21, 3000, "BOB", "", none, RStatus.CONFIRMED, some 103⟩

/-- C7. Confirmed-refund postcondition: a successful `create_refund_safe`
with `confirm_immediately` against a CONFIRMED payment of a fully paid ticket
(status PAID, `paid_at` stamped, `amount_due = 0`) returns a CONFIRMED refund
of the requested amount, moves the payment to PARTIALLY_REFUNDED when its
prior refunded total plus the amount stays below `payment.amount` (REFUNDED
otherwise), reduces `amount_paid` of the ticket by exactly the refund amount,
and leaves the ticket row — in particular its PAID status — untouched even
though `amount_due` becomes positive again: the propagator never reverts PAID
to RESERVED. -/
theorem C7_confirmed_refund_post
    (db : DB) (payment_id : Nat) (amount : Int) (reason : String)
    (processedById : Option Nat) (newId now : Nat) (r2 : Refund) (db2 : DB)
    (p : Payment) (tk : Ticket)
    (h : create_refund_safe db payment_id amount reason processedById true newId now =
      Except.ok (r2, db2))
    (hp : findPayment db payment_id = some p)
    (hpstat : p.status = PStatus.CONFIRMED)
    (htk : findTicket db p.ticketId = some tk)
    (htkPaid : tk.status = TStatus.PAID)
    (hpaid : tk.paid_at ≠ none)
    (hdue : amount_due db tk = 0)
    (hnT : (db.tickets.map Ticket.id).Nodup)
    (hnP : (db.payments.map Payment.id).Nodup)
    (hfresh : ∀ u ∈ db.refunds, u.id ≠ newId)
    (hprior : 0 ≤ refunded_total db p) :
    r2.status = RStatus.CONFIRMED ∧ r2.amount = amount ∧ r2.paymentId = payment_id ∧
    findPayment db2 payment_id =
      some { p with status :=
        if refunded_total db p + amount < p.amount
        then PStatus.PARTIALLY_REFUNDED else PStatus.REFUNDED } ∧
    findTicket db2 p.ticketId = some tk ∧
    tk.status = TStatus.PAID ∧
    amount_paid db2 tk = amount_paid db tk - amount ∧
    amount_due db2 tk = amount ∧ 0 < amount_due db2 tk := by
  have hpa : (tk.paid_at == none) = false := by
    cases hv : tk.paid_at with
    | none => exact absurd hv hpaid
    | some v => rfl
  unfold create_refund_safe at h
  rw [hp] at h
  simp only [getOr, ok_bind] at h
  rw [exc_bind_ok] at h
  obtain ⟨ug, hguard, h⟩ := h
  obtain ⟨hpos0, hrem0⟩ := refundChecks_ok (by cases ug; exact hguard)
  rw [exc_bind_ok] at h
  obtain ⟨uc, hcl, h⟩ := h
  have hpid : p.id = payment_id := findPayment_id hp
  have hp' : findPayment db p.id = some p := by
    rw [hpid]
    exact hp
  obtain ⟨hr2, hdb2⟩ :=
    refundSave_confirmed h hfresh rfl rfl hp' hpstat htk hpa hnT hprior hpos0
  have htid : tk.id = p.ticketId := findTicket_id htk
  have hmemP : p ∈ db.payments := List.mem_of_find?_eq_some hp
  have hrep : ∀ u ∈ db.payments, (u.id == p.id) = true → u = p := by
    intro u hu he
    exact List.inj_on_of_nodup_map hnP hu hmemP (by simpa using he)
  set pN : Payment := ({ p with status :=
      (if refunded_total db p + amount < p.amount
       then PStatus.PARTIALLY_REFUNDED else PStatus.REFUNDED) } : Payment) with hpN
  set rN : Refund := ({
      id := newId, paymentId := p.id, amount := amount,
      currency := p.currency, reason := reason, processedById := processedById,
      status := RStatus.CONFIRMED, processed_at := some now } : Refund) with hrN
  have hpay : db2.payments = db.payments.map
      (fun u => if u.id == pN.id then pN else u) := by
    rw [hdb2]
    exact upsertPayment_replace hmemP rfl
  have hrefs : db2.refunds = rN :: db.refunds := by
    rw [hdb2]
    rfl
  have hr2N : r2 = rN := by
    rw [hr2]
    rfl
  have hcong : ∀ r, refundOnTicket db2 tk.id r = refundOnTicket db tk.id r :=
    refundOnTicket_replace hpay hrep rfl rfl
  have hroN : refundOnTicket db tk.id rN = true := by
    unfold refundOnTicket
    rw [List.any_eq_true]
    refine ⟨p, hmemP, ?_⟩
    rw [htid]
    simp [hrN]
  have hS : (rN.status == RStatus.CONFIRMED && refundOnTicket db2 tk.id rN) = true := by
    rw [hcong rN, hroN]
    rfl
  have hTCS : ticketConfirmedSum db2 tk.id = ticketConfirmedSum db tk.id := by
    refine ticketConfirmedSum_replace hpay hrep rfl rfl ?_
    rw [hpstat]
    show confirmedClass (if refunded_total db p + amount < p.amount
      then PStatus.PARTIALLY_REFUNDED else PStatus.REFUNDED) =
      confirmedClass PStatus.CONFIRMED
    split <;> rfl
  have hTRS : ticketRefundsSum db2 tk.id = amount + ticketRefundsSum db tk.id :=
    ticketRefundsSum_step hrefs hS hcong
  have hap : amount_paid db2 tk = amount_paid db tk - amount := by
    unfold amount_paid
    rw [hTCS, hTRS]
    ring
  have hdue2 : amount_due db2 tk = amount := by
    unfold amount_due at hdue ⊢
    rw [hap]
    omega
  have hfind : db.payments.find? (fun q => q.id == p.id) = some p := by
    rw [hpid]
    exact hp
  have hfp : findPayment db2 payment_id = some pN := by
    unfold findPayment
    rw [hpay, ← hpid]
    exact find?_id_map_replace hrep hfind rfl
  have hft : findTicket db2 p.ticketId = some tk := by
    rw [hdb2]
    exact htk
  refine ⟨?_, ?_, ?_, hfp, hft, htkPaid, hap, hdue2, ?_⟩
  · rw [hr2N]
  · rw [hr2N]
  · rw [hr2N, ← hpid]
  · rw [hdue2]
    exact hpos0

/-- C7, witnessed on Scenario 2: on the fully paid demo store, refunding
30.00 against the confirmed 60.00 payment 21 yields confirmed refund 31,
payment 21 PARTIALLY_REFUNDED, `amount_paid` lowered by 30.00 and the ticket
still PAID with `amount_due` back at 30.00. -/
theorem C7_confirmed_refund_post_witness :
    create_refund_safe demoDB3 21 3000 "" none true 31 103 =
      Except.ok (demoRefund31, demoDB4) ∧
    demoRefund31.status = RStatus.CONFIRMED ∧
    findPayment demoDB4 21 =
      some { demoPayment21 with status := PStatus.PARTIALLY_REFUNDED } ∧
    findTicket demoDB4 11 = some demoTicket11P ∧
    demoTicket11P.status = TStatus.PAID ∧
    amount_paid demoDB4 demoTicket11P = amount_paid demoDB3 demoTicket11P - 3000 ∧
    amount_due demoDB4 demoTicket11P = 3000 ∧ 0 < amount_due demoDB4 demoTicket11P := by
  obtain ⟨h1, h2, h3, h4, h5, h6, h7, h8, h9⟩ :=
    C7_confirmed_refund_post demoDB3 21 3000 "" none 31 103 demoRefund31 demoDB4
      demoPayment21 demoTicket11P rfl rfl rfl rfl rfl (by decide) rfl
      (by decide) (by decide) (by decide) (by decide)
  exact ⟨rfl, h1, h4, h5, h6, h7, h8, h9⟩

end Sales
